import Mathlib

/-!
Shallow embedding of the rocket flight simulator (`src/rocketSimulator.js`)
over exact rational arithmetic, together with theorems checking its
natural-language specification.

The JavaScript source computes with IEEE doubles and the transcendental
functions `Math.exp`, `Math.sqrt`, `Math.sin`, `Math.cos`, `Math.PI`.  The
embedding keeps every numeric constant exact (as a rational) and abstracts
the transcendental operations into an `Ops` parameter, so that every
definition stays computable and can be evaluated on concrete inputs once a
concrete `Ops` is supplied.
-/

namespace RocketSim

/-- Abstract stand-ins for `Math.exp`, `Math.sqrt`, `Math.sin`, `Math.cos`
and `Math.PI`, the only non-rational operations the simulator uses. -/
structure Ops where
  exp : ℚ → ℚ
  sqrt : ℚ → ℚ
  sin : ℚ → ℚ
  cos : ℚ → ℚ
  pi : ℚ

/-- Flight phases (`state.phase` in the source, a string there). -/
inductive Phase where
  | PAD | IGNITION | LAUNCH | ASCENT | MECO | STAGE_SEP | SECOND_STAGE
  | ORBIT | ABORT | ABORTED_STOPPED | LANDING | LANDED
deriving DecidableEq

/-- Per-stage vehicle data (`specs.firstStage` / `specs.secondStage`).
The source's second stage object has no `thrustVac` field; the field is
never read on the stage-2 code path (`calculateThrust` branches on the
stage number first), so here it is set equal to the vacuum-rated `thrust`. -/
structure StageSpec where
  dryMass : ℚ
  propellantMass : ℚ
  thrust : ℚ
  thrustVac : ℚ
  burnTime : ℚ
  engines : ℚ
  specificImpulse : ℚ
deriving DecidableEq

def firstStage : StageSpec :=
  { dryMass := 22200, propellantMass := 411000, thrust := 7607000
    thrustVac := 8227000, burnTime := 162, engines := 9, specificImpulse := 282 }

def secondStage : StageSpec :=
  { dryMass := 4000, propellantMass := 111500, thrust := 934000
    thrustVac := 934000, burnTime := 397, engines := 1, specificImpulse := 348 }

def payload : ℚ := 22800
def totalMass : ℚ := 549054
def dragCoefficient : ℚ := 0.3
def crossSection : ℚ := 10.52

/-- Physics constants (`this.constants`). -/
def g0 : ℚ := 9.81
def earthRadius : ℚ := 6371000
def atmosphereHeight : ℚ := 100000
def airDensitySeaLevel : ℚ := 1.225

/-- Mission parameters (`this.mission`), the ones the logic reads. -/
def targetAltitude : ℚ := 400000
def targetVelocity : ℚ := 7660
def gravityTurnStart : ℚ := 150

/-- Safety limits (`this.limits`). -/
structure Limits where
  maxQ : ℚ
  maxG : ℚ
  maxThrust : ℚ
  maxAltitude : ℚ
  maxVelocity : ℚ
  minChamberPressure : ℚ
deriving DecidableEq

def limits : Limits :=
  { maxQ := 45000, maxG := 5, maxThrust := 8500000
    maxAltitude := 500000, maxVelocity := 8000, minChamberPressure := 50 }

/-- Mutable flight state (`this.state`).  `landingLegsDeployed` is absent
from the constructor in the source (it is first read as `undefined`, which
is falsy); it is modelled as a `Bool` starting `false`. -/
structure StateRec where
  phase : Phase
  stageNumber : ℕ
  ignitionSequence : Bool
  engineStatus : String
  guidanceMode : String
  throttleLevel : ℚ
  missionTime : ℚ
  abortFlag : Bool
  landingBurnStarted : Bool
  landingLegsDeployed : Bool
deriving DecidableEq

/-- Telemetry record (`this.telemetry`).  The fields from
`chamberTemperature` onward are not initialised by the constructor in the
source (they are first written during abort/landing); they are modelled as
rationals starting at 0. -/
@[ext]
structure Telemetry where
  altitude : ℚ
  velocity : ℚ
  acceleration : ℚ
  downrange : ℚ
  apogee : ℚ
  perigee : ℚ
  inclination : ℚ
  orbitalVelocity : ℚ
  mass : ℚ
  thrust : ℚ
  twr : ℚ
  maxQ : ℚ
  gForce : ℚ
  propellantRemaining : ℚ
  engineThrottle : ℚ
  chamberPressure : ℚ
  exhaustVelocity : ℚ
  pitch : ℚ
  yaw : ℚ
  roll : ℚ
  flightPathAngle : ℚ
  dynamicPressure : ℚ
  machNumber : ℚ
  atmosphericDensity : ℚ
  temperature : ℚ
  stage1FuelRemaining : ℚ
  stage2FuelRemaining : ℚ
  stage1BurnTime : ℚ
  stage2BurnTime : ℚ
  chamberTemperature : ℚ
  fuelFlowRate : ℚ
  oxidizerFlowRate : ℚ
  totalFlowRate : ℚ
  fuelTurbopumpRPM : ℚ
  oxidizerTurbopumpRPM : ℚ
  turbopumpInletPressure : ℚ
  nozzleThroatTemp : ℚ
  turbineInletTemp : ℚ
  vibrationLevel : ℚ
  gimbalAngleX : ℚ
  gimbalAngleY : ℚ
deriving DecidableEq

/-- The whole engine: flight state plus telemetry. -/
@[ext]
structure Engine where
  state : StateRec
  telemetry : Telemetry
deriving DecidableEq

def initialState : StateRec :=
  { phase := .PAD, stageNumber := 1, ignitionSequence := false
    engineStatus := "OFF", guidanceMode := "GRAVITY_TURN", throttleLevel := 100
    missionTime := 0, abortFlag := false, landingBurnStarted := false
    landingLegsDeployed := false }

def initialTelemetry : Telemetry :=
  { altitude := 0, velocity := 0, acceleration := 0, downrange := 0
    apogee := 0, perigee := 0, inclination := 51.6, orbitalVelocity := 0
    mass := totalMass, thrust := 0, twr := 0, maxQ := 0, gForce := 0
    propellantRemaining := 100, engineThrottle := 0, chamberPressure := 0
    exhaustVelocity := 0, pitch := 90, yaw := 0, roll := 0
    flightPathAngle := 90, dynamicPressure := 0, machNumber := 0
    atmosphericDensity := airDensitySeaLevel, temperature := 288
    stage1FuelRemaining := 100, stage2FuelRemaining := 100
    stage1BurnTime := 0, stage2BurnTime := 0
    chamberTemperature := 0, fuelFlowRate := 0, oxidizerFlowRate := 0
    totalFlowRate := 0, fuelTurbopumpRPM := 0, oxidizerTurbopumpRPM := 0
    turbopumpInletPressure := 0, nozzleThroatTemp := 0, turbineInletTemp := 0
    vibrationLevel := 0, gimbalAngleX := 0, gimbalAngleY := 0 }

def initialEngine : Engine :=
  { state := initialState, telemetry := initialTelemetry }

/-- Source `getGravity()`: inverse-square gravity at the current altitude. -/
def getGravity (t : Telemetry) : ℚ :=
  let r := earthRadius + t.altitude
  g0 * (earthRadius / r) ^ 2

/-- Source `calculateThrust(stage)`: pressure-compensated thrust for stage 1,
rated vacuum thrust for stage 2. -/
def calculateThrust (ops : Ops) (e : Engine) (stage : StageSpec) : ℚ :=
  let atmosphericPressure := 101325 * ops.exp (-e.telemetry.altitude / 8000)
  let seaLevelPressure : ℚ := 101325
  if e.state.stageNumber = 1 then
    stage.thrust + atmosphericPressure / seaLevelPressure * (stage.thrustVac - stage.thrust)
  else
    stage.thrust

/-- Source `calculateDrag()`: quadratic drag from the stored atmospheric density,
zero above the modelled atmosphere. -/
def calculateDrag (t : Telemetry) : ℚ :=
  if t.altitude > atmosphereHeight then 0
  else 0.5 * t.atmosphericDensity * t.velocity * t.velocity * dragCoefficient * crossSection

/-- Source `updateEnvironment()`, telemetry part: density, temperature, Mach,
dynamic pressure and the running max-Q.  The method reads and writes only
`this.telemetry`. -/
def updateEnvironmentT (ops : Ops) (t : Telemetry) : Telemetry :=
  let alt := t.altitude
  if alt < atmosphereHeight then
    let density := airDensitySeaLevel * ops.exp (-alt / 8000)
    let temp : ℚ :=
      if alt < 11000 then 288 - 0.0065 * alt
      else if alt < 25000 then 216.65
      else 216.65 + 0.0028 * (alt - 25000)
    let sos := ops.sqrt (1.4 * 287 * temp)
    let mach := t.velocity / sos
    let q := 0.5 * density * t.velocity * t.velocity
    let maxQ' := if q > t.maxQ then q else t.maxQ
    { t with atmosphericDensity := density, temperature := temp,
             machNumber := mach, dynamicPressure := q, maxQ := maxQ' }
  else
    { t with atmosphericDensity := 0, dynamicPressure := 0,
             machNumber := 0, temperature := 2.7 }

def updateEnvironment (ops : Ops) (e : Engine) : Engine :=
  { e with telemetry := updateEnvironmentT ops e.telemetry }

/-- Source `calculateOrbitalParams()`, telemetry part.  In the source a zero
specific-energy denominator yields an infinite (negative) semi-major axis
and hence no apogee/perigee update; rational division by zero yields 0
here, with the same no-update outcome. -/
def calculateOrbitalParamsT (ops : Ops) (t : Telemetry) : Telemetry :=
  let alt := t.altitude
  let vel := t.velocity
  let r := earthRadius + alt
  let orbitalVel := ops.sqrt (g0 * earthRadius * earthRadius / r)
  let t := { t with orbitalVelocity := orbitalVel }
  if vel > 0 then
    let energy := vel * vel / 2 - g0 * earthRadius * earthRadius / r
    let a := -(g0 * earthRadius * earthRadius) / (2 * energy)
    if a > 0 then
      { t with apogee := (a * 2 - r) / 1000, perigee := alt / 1000 }
    else t
  else t

def calculateOrbitalParams (ops : Ops) (e : Engine) : Engine :=
  { e with telemetry := calculateOrbitalParamsT ops e.telemetry }

/-- First half of `updateGuidance()`: the gravity-turn pitch program. -/
def applyPitchProgram (e : Engine) : Engine :=
  if e.state.guidanceMode = "GRAVITY_TURN" ∧ e.telemetry.altitude > gravityTurnStart then
    let targetPitch := 90 - e.telemetry.altitude / 100000 * 45
    let p := max targetPitch 0
    { e with telemetry := { e.telemetry with pitch := p, flightPathAngle := p } }
  else e

/-- Second half of `updateGuidance()`: the max-Q throttle policy
(throttle to 70 above 35 kPa on stage 1; restore to 100 below 25 kPa
whenever the throttle sits under 100, on any stage). -/
def applyThrottlePolicy (e : Engine) : Engine :=
  if e.telemetry.dynamicPressure > 35000 ∧ e.state.stageNumber = 1 then
    { e with state := { e.state with throttleLevel := 70 } }
  else if e.telemetry.dynamicPressure < 25000 ∧ e.state.throttleLevel < 100 then
    { e with state := { e.state with throttleLevel := 100 } }
  else e

/-- Source `updateGuidance()`: pitch program, then throttle policy. -/
def updateGuidance (e : Engine) : Engine :=
  applyThrottlePolicy (applyPitchProgram e)

/-- Source `simulateIgnition()`: thrust ramp over the first 0.1 s, then hand over
to `LAUNCH`. -/
def simulateIgnition (e : Engine) : Engine :=
  let ignitionProgress := min (e.state.missionTime * 10) 1
  let e := { e with telemetry :=
    { e.telemetry with
      thrust := firstStage.thrust * ignitionProgress
      engineThrottle := ignitionProgress * 100
      chamberPressure := 270 * ignitionProgress } }
  if ignitionProgress ≥ 1 then
    { e with state := { e.state with phase := .LAUNCH } }
  else e

/-- Source `simulateAscent()`: powered-flight physics for the active stage
(also used for `SECOND_STAGE` via `simulateSecondStage`). -/
def simulateAscent (ops : Ops) (e : Engine) : Engine :=
  let dt : ℚ := 0.1
  let stage := if e.state.stageNumber = 1 then firstStage else secondStage
  let thrust := calculateThrust ops e stage * (e.state.throttleLevel / 100)
  let fuelBurnRate := thrust / (stage.specificImpulse * g0)
  let e := { e with telemetry :=
    { e.telemetry with thrust := thrust, mass := e.telemetry.mass - fuelBurnRate * dt } }
  let e :=
    if e.state.stageNumber = 1 then
      let bt := e.telemetry.stage1BurnTime + dt
      let fuel := max 0 (100 * (1 - bt / stage.burnTime))
      { e with telemetry := { e.telemetry with
          stage1BurnTime := bt
          stage1FuelRemaining := fuel, propellantRemaining := fuel } }
    else
      let bt := e.telemetry.stage2BurnTime + dt
      let fuel := max 0 (100 * (1 - bt / stage.burnTime))
      { e with telemetry := { e.telemetry with
          stage2BurnTime := bt
          stage2FuelRemaining := fuel, propellantRemaining := fuel } }
  let weight := e.telemetry.mass * getGravity e.telemetry
  let drag := calculateDrag e.telemetry
  let netForce := thrust - weight - drag
  let accel := netForce / e.telemetry.mass
  let e := { e with telemetry := { e.telemetry with acceleration := accel, gForce := accel / g0 } }
  let v := e.telemetry.velocity + accel * dt
  let alt := e.telemetry.altitude + v * dt
  let e := { e with telemetry := { e.telemetry with velocity := v, altitude := alt } }
  let horizontalVel := v * ops.sin (ops.pi * (90 - e.telemetry.pitch) / 180)
  let e := { e with telemetry :=
    { e.telemetry with downrange := e.telemetry.downrange + horizontalVel * dt / 1000 } }
  let e := updateGuidance e
  let e := { e with telemetry :=
    { e.telemetry with
      exhaustVelocity := stage.specificImpulse * g0
      chamberPressure := 270 * (e.telemetry.engineThrottle / 100) } }
  { e with telemetry := { e.telemetry with twr := thrust / weight } }

/-- Source `simulateMECO()`: unpowered coast (free fall with drag). -/
def simulateMECO (e : Engine) : Engine :=
  let dt : ℚ := 0.1
  let weight := e.telemetry.mass * getGravity e.telemetry
  let drag := calculateDrag e.telemetry
  let accel := -(weight + drag) / e.telemetry.mass
  let v := e.telemetry.velocity + accel * dt
  let alt := e.telemetry.altitude + v * dt
  { e with telemetry := { e.telemetry with
      acceleration := accel, velocity := v
      altitude := alt, gForce := accel / g0 } }

/-- Source `simulateStageSeparation()`: brief coast during separation. -/
def simulateStageSeparation (e : Engine) : Engine :=
  simulateMECO e

/-- Source `simulateSecondStage()`: same physics as ascent, different stage. -/
def simulateSecondStage (ops : Ops) (e : Engine) : Engine :=
  simulateAscent ops e

/-- Source `separateStage()`: jettison stage 1 and reset the vehicle mass.  The
source additionally schedules the `STAGE_SEP → SECOND_STAGE` transition on
a 2-second wall-clock timer (`setTimeout`), outside the per-tick model. -/
def separateStage (e : Engine) : Engine :=
  if e.state.stageNumber = 1 then
    { e with
      state := { e.state with phase := .STAGE_SEP, stageNumber := 2 },
      telemetry := { e.telemetry with
        mass := secondStage.dryMass + secondStage.propellantMass + payload } }
  else e

/-- First transition check of `checkPhaseTransitions()`:
`LAUNCH → ASCENT` above 1000 m. -/
def transLaunchAscent (e : Engine) : Engine :=
  if e.state.phase = .LAUNCH ∧ e.telemetry.altitude > 1000 then
    { e with state := { e.state with phase := .ASCENT } }
  else e

/-- Second transition check: `ASCENT → MECO` on stage-1 depletion. -/
def transMeco (e : Engine) : Engine :=
  if e.state.phase = .ASCENT ∧ e.state.stageNumber = 1 ∧
      (e.telemetry.stage1FuelRemaining ≤ 0 ∨
        e.telemetry.stage1BurnTime ≥ firstStage.burnTime) then
    { e with state := { e.state with phase := .MECO },
             telemetry := { e.telemetry with thrust := 0 } }
  else e

/-- Third transition check: `MECO → STAGE_SEP` once `missionTime > 3`. -/
def transSep (e : Engine) : Engine :=
  if e.state.phase = .MECO ∧ e.state.missionTime > 3 then separateStage e else e

/-- Fourth transition check: `SECOND_STAGE → ORBIT` on depletion or on
reaching the altitude/velocity targets. -/
def transOrbit (e : Engine) : Engine :=
  if e.state.phase = .SECOND_STAGE ∧
      (e.telemetry.stage2FuelRemaining ≤ 0 ∨
        e.telemetry.altitude ≥ targetAltitude ∨
        e.telemetry.velocity ≥ targetVelocity) then
    { e with state := { e.state with phase := .ORBIT },
             telemetry := { e.telemetry with thrust := 0 } }
  else e

/-- Source `checkPhaseTransitions()`: the four sequential transition checks. -/
def checkPhaseTransitions (e : Engine) : Engine :=
  transOrbit (transSep (transMeco (transLaunchAscent e)))

/-- Source `simulateAbort()`: geometric decay of all flight quantities toward a
complete stop, snapping to the terminal `ABORTED_STOPPED` phase once the
altitude falls under 1 m (or once altitude and velocity are both zero). -/
def simulateAbort (e : Engine) : Engine :=
  if e.telemetry.altitude ≤ 0 ∧ e.telemetry.velocity ≤ 0 then
    { e with
      state := { e.state with
        phase := .ABORTED_STOPPED
        engineStatus := "SHUTDOWN - ABORTED" }
      telemetry := { e.telemetry with
        altitude := 0
        velocity := 0
        acceleration := 0
        gForce := 0
        thrust := 0
        chamberPressure := 0
        chamberTemperature := 300
        fuelFlowRate := 0
        oxidizerFlowRate := 0
        totalFlowRate := 0
        fuelTurbopumpRPM := 0
        oxidizerTurbopumpRPM := 0
        turbopumpInletPressure := 0
        nozzleThroatTemp := 300
        turbineInletTemp := 300
        dynamicPressure := 0
        machNumber := 0
        vibrationLevel := 0
        exhaustVelocity := 0 } }
  else
    let t := e.telemetry
    let fuelFlow := max 0 (t.fuelFlowRate * 0.70)
    let oxFlow := max 0 (t.oxidizerFlowRate * 0.70)
    let altitude1 := max 0 (t.altitude * 0.85)
    let altitude2 := if altitude1 < 100 then max 0 (altitude1 * 0.5) else altitude1
    let t1 : Telemetry := { t with
      thrust := 0
      chamberPressure := max 0 (t.chamberPressure * 0.85)
      chamberTemperature := max 300 (t.chamberTemperature * 0.90)
      altitude := altitude2
      velocity := max 0 (t.velocity * 0.75)
      downrange := max 0 (t.downrange * 0.98)
      acceleration := -9.81
      gForce := -1
      fuelFlowRate := fuelFlow
      oxidizerFlowRate := oxFlow
      totalFlowRate := fuelFlow + oxFlow
      propellantRemaining := max 0 (t.propellantRemaining * 0.95)
      fuelTurbopumpRPM := max 0 (t.fuelTurbopumpRPM * 0.75)
      oxidizerTurbopumpRPM := max 0 (t.oxidizerTurbopumpRPM * 0.75)
      turbopumpInletPressure := max 0 (t.turbopumpInletPressure * 0.80)
      nozzleThroatTemp := max 300 (t.nozzleThroatTemp * 0.88)
      turbineInletTemp := max 300 (t.turbineInletTemp * 0.88)
      dynamicPressure := 0
      machNumber := 0
      vibrationLevel := max 0 (t.vibrationLevel * 0.70)
      exhaustVelocity := max 0 (t.exhaustVelocity * 0.80)
      mass := max (totalMass * 0.3) (t.mass * 0.995) }
    if altitude2 < 1 then
      { e with
        state := { e.state with
          phase := .ABORTED_STOPPED
          engineStatus := "SHUTDOWN - ABORTED" }
        telemetry := { t1 with
          altitude := 0
          velocity := 0
          acceleration := 0
          gForce := 0
          fuelTurbopumpRPM := 0
          oxidizerTurbopumpRPM := 0
          fuelFlowRate := 0
          oxidizerFlowRate := 0
          totalFlowRate := 0 } }
    else
      { e with telemetry := t1 }

/-- The altitude band the landing sequencer selects while in `LANDING`,
read off the guards of the `if`/`else` chain in `simulateLanding()`
(band 7 is the touchdown/`LANDED` branch).  The guards read only the
altitude and the `landingBurnStarted` flag; the `landingLegsDeployed`
flag is accepted as an argument to record that it, too, is available to
the selection. -/
def landingBand (alt : ℚ) (burnStarted : Bool) (_legsDeployed : Bool) : ℕ :=
  if alt > 50000 then 1
  else if alt > 7000 then 2
  else if alt > 2000 then 3
  else if alt > 500 ∧ burnStarted = false then 4
  else if burnStarted = true ∧ alt > 20 then 5
  else if alt ≤ 20 ∧ alt > 0 then 6
  else 7

/-- Source `simulateLanding()`: the seven-band propulsive landing model. -/
def simulateLanding (ops : Ops) (e : Engine) : Engine :=
  let dt : ℚ := 0.1
  if e.state.phase = .LANDED then
    { e with
      state := { e.state with engineStatus := "SHUTDOWN - LANDED" }
      telemetry := { e.telemetry with
        altitude := 0
        velocity := 0
        thrust := 0
        engineThrottle := 0
        chamberPressure := 0
        fuelFlowRate := 0
        oxidizerFlowRate := 0
        acceleration := 0
        gForce := 0
        totalFlowRate := 0
        fuelTurbopumpRPM := 0
        oxidizerTurbopumpRPM := 0 } }
  else
    let e :=
      if e.telemetry.altitude > 50000 then
        -- Phase 1: re-entry burn
        let v := max (-1200) (e.telemetry.velocity - 30)
        { e with
          state := { e.state with engineStatus := "RE-ENTRY BURN (3 ENGINES)" }
          telemetry := { e.telemetry with
            velocity := v
            altitude := e.telemetry.altitude + v * dt
            thrust := 1800000
            engineThrottle := 30
            machNumber := |v| / 343
            dynamicPressure := 0.5 * 0.01 * v * v } }
      else if e.telemetry.altitude > 7000 then
        -- Phase 2: aerodynamic descent under grid-fin control
        let v := max (-350) (e.telemetry.velocity - 15)
        { e with
          state := { e.state with engineStatus := "GRID FIN CONTROL" }
          telemetry := { e.telemetry with
            velocity := v
            altitude := e.telemetry.altitude + v * dt
            thrust := 0
            engineThrottle := 0
            pitch := 88 + ops.sin (e.state.missionTime * 0.5) * 2
            gimbalAngleX := ops.sin (e.state.missionTime * 1.5) * 3
            gimbalAngleY := ops.cos (e.state.missionTime * 1.5) * 3 } }
      else if e.telemetry.altitude > 2000 then
        -- Phase 3: entry burn
        let v := max (-250) (e.telemetry.velocity + 10)
        { e with
          state := { e.state with engineStatus := "ENTRY BURN (3 ENGINES)" }
          telemetry := { e.telemetry with
            velocity := v
            altitude := e.telemetry.altitude + v * dt
            thrust := 2200000
            engineThrottle := 70 } }
      else if e.telemetry.altitude > 500 ∧ e.state.landingBurnStarted = false then
        -- Phase 4: coast before the landing burn
        let v := max (-120) (e.telemetry.velocity - 8)
        let alt := e.telemetry.altitude + v * dt
        let e := { e with
          state := { e.state with engineStatus := "PREPARING LANDING BURN" }
          telemetry := { e.telemetry with
            velocity := v
            altitude := alt
            thrust := 0
            engineThrottle := 0 } }
        if alt ≤ 600 then
          { e with state := { e.state with landingBurnStarted := true } }
        else e
      else if e.state.landingBurnStarted = true ∧ e.telemetry.altitude > 20 then
        -- Phase 5: single-engine hoverslam burn
        let timeToImpact := |e.telemetry.altitude / e.telemetry.velocity|
        let requiredDeceleration := |e.telemetry.velocity| / timeToImpact
        let requiredThrust := e.telemetry.mass * (requiredDeceleration + 9.81)
        let maxSingleEngineThrust : ℚ := 850000
        let minThrust := maxSingleEngineThrust * 0.4
        let thrust := min maxSingleEngineThrust (max minThrust requiredThrust)
        let throttle := thrust / maxSingleEngineThrust * 100
        let accel := thrust / e.telemetry.mass - 9.81
        let v := e.telemetry.velocity + accel * dt
        let alt := e.telemetry.altitude + v * dt
        let e := { e with
          state := { e.state with engineStatus := "LANDING BURN (1 ENGINE)" }
          telemetry := { e.telemetry with
            thrust := thrust
            engineThrottle := throttle
            velocity := v
            altitude := alt
            chamberPressure := 100 + 150 * (throttle / 100)
            chamberTemperature := 2500 + 800 * (throttle / 100)
            fuelFlowRate := 250 * (throttle / 100)
            oxidizerFlowRate := 650 * (throttle / 100) } }
        if alt < 40 ∧ e.state.landingLegsDeployed = false then
          { e with state := { e.state with landingLegsDeployed := true } }
        else e
      else if e.telemetry.altitude ≤ 20 ∧ e.telemetry.altitude > 0 then
        -- Phase 6: terminal touchdown
        let targetVel := -(ops.sqrt (e.telemetry.altitude * 0.8))
        let v := max (-5) targetVel
        let hoverThrust := e.telemetry.mass * 9.81
        let velocityCorrection := (targetVel - v) * e.telemetry.mass * 10
        let thrust := max 400000 (min 850000 (hoverThrust + velocityCorrection))
        { e with
          state := { e.state with engineStatus := "TOUCHDOWN BURN" }
          telemetry := { e.telemetry with
            velocity := v
            altitude := max 0 (e.telemetry.altitude + v * dt)
            thrust := thrust
            engineThrottle := thrust / 850000 * 100 } }
      else
        -- Phase 7: landed
        { e with
          state := { e.state with
            phase := .LANDED
            engineStatus := "SHUTDOWN - LANDED" }
          telemetry := { e.telemetry with
            altitude := 0
            velocity := 0
            thrust := 0
            engineThrottle := 0
            chamberPressure := 0
            chamberTemperature := 300
            fuelFlowRate := 0
            oxidizerFlowRate := 0
            totalFlowRate := 0
            acceleration := 0
            gForce := 0
            fuelTurbopumpRPM := 0
            oxidizerTurbopumpRPM := 0
            turbopumpInletPressure := 0
            nozzleThroatTemp := 300
            turbineInletTemp := 300
            dynamicPressure := 0
            machNumber := 0
            vibrationLevel := 0
            exhaustVelocity := 0 } }
    { e with telemetry := { e.telemetry with
        acceleration := e.telemetry.thrust / e.telemetry.mass - 9.81
        gForce := (e.telemetry.thrust / e.telemetry.mass - 9.81) / 9.81
        totalFlowRate := e.telemetry.fuelFlowRate + e.telemetry.oxidizerFlowRate
        fuelTurbopumpRPM := 20000 * (e.telemetry.engineThrottle / 100)
        oxidizerTurbopumpRPM := 22000 * (e.telemetry.engineThrottle / 100) } }

/-- The `missionTime += 0.1` step at the top of `updateSimulation()`. -/
def advanceClock (e : Engine) : Engine :=
  { e with state := { e.state with missionTime := e.state.missionTime + 0.1 } }

/-- The phase dispatch (`switch (this.state.phase)`) inside
`updateSimulation()`. -/
def dispatchPhase (ops : Ops) (e : Engine) : Engine :=
  match e.state.phase with
  | .IGNITION => simulateIgnition e
  | .LAUNCH => simulateAscent ops e
  | .ASCENT => simulateAscent ops e
  | .MECO => simulateMECO e
  | .STAGE_SEP => simulateStageSeparation e
  | .SECOND_STAGE => simulateSecondStage ops e
  | .ABORT => simulateAbort e
  | .LANDING => simulateLanding ops e
  | _ => e

/-- Source `updateSimulation()`: the per-tick entry point.  The source returns
`this.telemetry`; here the whole updated engine is returned and the
telemetry is read off it. -/
def updateSimulation (ops : Ops) (e : Engine) : Engine :=
  if e.state.phase = .PAD ∨ e.state.phase = .ORBIT ∨ e.state.phase = .LANDED then
    e
  else
    let e :=
      if e.state.phase ≠ .ABORT ∧ e.state.phase ≠ .LANDING then advanceClock e
      else e
    let e := dispatchPhase ops e
    let e := updateEnvironment ops e
    let e := calculateOrbitalParams ops e
    checkPhaseTransitions e

/-- Source `armIgnition()`. -/
def armIgnition (e : Engine) : Engine :=
  if e.state.phase = .PAD then
    { e with state := { e.state with ignitionSequence := true } }
  else e

/-- Source `startIgnitionSequence()`. -/
def startIgnitionSequence (e : Engine) : Engine :=
  if e.state.ignitionSequence = true then
    { e with state := { e.state with phase := .IGNITION, engineStatus := "STARTING" } }
  else e

/-- Source `launch()`. -/
def launch (e : Engine) : Engine :=
  if e.state.phase = .IGNITION ∨ e.state.phase = .PAD then
    { e with state := { e.state with phase := .LAUNCH, engineStatus := "RUNNING" } }
  else e

/-- Source `abort()`: force the `ABORT` phase from anywhere and cut thrust. -/
def abortCmd (e : Engine) : Engine :=
  { e with
    state := { e.state with phase := .ABORT, abortFlag := true }
    telemetry := { e.telemetry with thrust := 0 } }

/-- Source `initiateLanding()`. -/
def initiateLanding (e : Engine) : Engine :=
  { e with state := { e.state with phase := .LANDING, landingBurnStarted := false } }

/-- Source `setThrottle(level)`: clamp to [0,100] and store. -/
def setThrottle (level : ℚ) (e : Engine) : Engine :=
  { e with state := { e.state with throttleLevel := max 0 (min 100 level) } }

/-- One anomaly record returned by `checkAnomalies()`. -/
structure Anomaly where
  parameter : String
  value : ℚ
  limit : ℚ
  severity : String
  message : String
deriving DecidableEq

/-- Source `checkAnomalies()`: the three threshold checks, in source order.  The
method reads `this.telemetry` and `this.limits` and builds a fresh list. -/
def checkAnomalies (t : Telemetry) : List Anomaly :=
  (if t.dynamicPressure > limits.maxQ then
    [{ parameter := "dynamicPressure", value := t.dynamicPressure
       limit := limits.maxQ, severity := "WARNING"
       message := "Approaching max-Q limits" }]
  else []) ++
  (if |t.gForce| > limits.maxG then
    [{ parameter := "gForce", value := t.gForce
       limit := limits.maxG, severity := "CRITICAL"
       message := "Excessive G-forces detected" }]
  else []) ++
  (if t.thrust > limits.maxThrust then
    [{ parameter := "thrust", value := t.thrust
       limit := limits.maxThrust, severity := "CRITICAL"
       message := "Engine over-thrust condition" }]
  else [])

/-- Source `checkAnomalies()` viewed as an operation on the engine: it performs
no writes, so the state-passing reading of the method returns the engine
unchanged alongside the anomaly list. -/
def checkAnomaliesOp (e : Engine) : Engine × List Anomaly :=
  (e, checkAnomalies e.telemetry)

/-- A concrete instantiation of the abstract operations, used to evaluate
the model on concrete inputs. -/
def opsZero : Ops :=
  { exp := fun _ => 0, sqrt := fun _ => 1, sin := fun _ => 0
    cos := fun _ => 1, pi := 3 }

/-! Section: Frame lemmas

Small projection facts used across the spec theorems: which parts of the
engine each helper leaves untouched. -/

/-- Witness for C6 at a concrete telemetry whose thrust sits exactly on
the configured limit. -/
def c6Telemetry : Telemetry := { initialTelemetry with thrust := 8500000 }

/-- Witness for C10 on a concrete stage-2 engine state with the throttle
set to 50 and low dynamic pressure. -/
def c10Engine : Engine :=
  { state := { initialState with phase := .SECOND_STAGE, stageNumber := 2 }
    telemetry := { initialTelemetry with
      altitude := 200000, velocity := 5000
      mass := 130000 } }

/-- The engine-status label each landing band writes. -/
def statusOfBand : ℕ → String
  | 1 => "RE-ENTRY BURN (3 ENGINES)"
  | 2 => "GRID FIN CONTROL"
  | 3 => "ENTRY BURN (3 ENGINES)"
  | 4 => "PREPARING LANDING BURN"
  | 5 => "LANDING BURN (1 ENGINE)"
  | 6 => "TOUCHDOWN BURN"
  | _ => "SHUTDOWN - LANDED"

/-- Witnesses for C8 at three concrete landing states. -/
def c8High : Engine :=
  { state := { initialState with phase := .LANDING }
    telemetry := { initialTelemetry with altitude := 60000, velocity := -900, mass := 25000 } }

def c8Coast : Engine :=
  { state := { initialState with phase := .LANDING }
    telemetry := { initialTelemetry with altitude := 1000, velocity := -200, mass := 25000 } }

def c8Touch : Engine :=
  { state := { initialState with phase := .LANDING, landingBurnStarted := true }
    telemetry := { initialTelemetry with altitude := 10, velocity := -4, mass := 25000 } }

/-- The propellant/burn-time telemetry invariant: the displayed propellant
fraction lies in [0,100] and the accumulated burn times are non-negative. -/
def PropellantInv (e : Engine) : Prop :=
  0 ≤ e.telemetry.propellantRemaining ∧ e.telemetry.propellantRemaining ≤ 100 ∧
  0 ≤ e.telemetry.stage1BurnTime ∧ 0 ≤ e.telemetry.stage2BurnTime

/-- Witness for C4: one tick from the pad keeps the invariant, and a
stage-1 ascent step crossing the 162 s rated burn time displays exactly
0 % propellant. -/
def c4Engine : Engine :=
  { state := { initialState with phase := .ASCENT }
    telemetry := { initialTelemetry with stage1BurnTime := 161.9 } }

/-- The max-Q invariant holding at the end of every tick: the running
maximum is non-negative and dominates the current dynamic pressure. -/
def MaxQInv (e : Engine) : Prop :=
  0 ≤ e.telemetry.maxQ ∧ e.telemetry.dynamicPressure ≤ e.telemetry.maxQ

/-- The engine after `n` ticks. -/
def runTicks (ops : Ops) (e : Engine) : ℕ → Engine
  | 0 => e
  | n + 1 => updateSimulation ops (runTicks ops e n)

/-- Witness for the amended C2 at a concrete `MECO` state whose mission
clock is far past 3 s. -/
def c2Meco : Engine :=
  { state := { initialState with phase := .MECO, missionTime := 10 }
    telemetry := { initialTelemetry with altitude := 70000, velocity := 2000, mass := 150000 } }

/-- Counterexample to C2 as stated: a stage-1 engine still in `ASCENT`
(burn time 161.9 s, MECO not yet reached) whose next tick ends in
`STAGE_SEP`.  MECO and the separation happen inside the same tick, i.e.
the separation fires 0 s — not ≥ 3 s — past MECO, because the guard
compares the absolute mission clock with 3 s. -/
def c2Cex : Engine :=
  { state := { initialState with phase := .ASCENT, missionTime := 161.9 }
    telemetry := { initialTelemetry with
      altitude := 2000, velocity := 100
      mass := 200000, stage1BurnTime := 161.9 } }

/-- Witness for C9 at a concrete `ABORT` state 2 m up. -/
def c9Engine : Engine :=
  { state := { initialState with phase := .ABORT, abortFlag := true }
    telemetry := { initialTelemetry with altitude := 2, velocity := 0, thrust := 0 } }

/-- The five telemetry fields `updateEnvironment()` writes, factored out
as functions of the input telemetry (same expressions as in
`updateEnvironmentT`). -/
def envDensity (ops : Ops) (t : Telemetry) : ℚ :=
  if t.altitude < atmosphereHeight then
    airDensitySeaLevel * ops.exp (-t.altitude / 8000)
  else 0

def envTemp (t : Telemetry) : ℚ :=
  if t.altitude < atmosphereHeight then
    (if t.altitude < 11000 then 288 - 0.0065 * t.altitude
     else if t.altitude < 25000 then 216.65
     else 216.65 + 0.0028 * (t.altitude - 25000))
  else 2.7

def envMach (ops : Ops) (t : Telemetry) : ℚ :=
  if t.altitude < atmosphereHeight then
    t.velocity / ops.sqrt (1.4 * 287 *
      (if t.altitude < 11000 then 288 - 0.0065 * t.altitude
       else if t.altitude < 25000 then 216.65
       else 216.65 + 0.0028 * (t.altitude - 25000)))
  else 0

def envQ (ops : Ops) (t : Telemetry) : ℚ :=
  if t.altitude < atmosphereHeight then
    0.5 * (airDensitySeaLevel * ops.exp (-t.altitude / 8000)) * t.velocity * t.velocity
  else 0

def envMaxQ (ops : Ops) (t : Telemetry) : ℚ :=
  if t.altitude < atmosphereHeight then
    (if 0.5 * (airDensitySeaLevel * ops.exp (-t.altitude / 8000)) * t.velocity * t.velocity
        > t.maxQ then
      0.5 * (airDensitySeaLevel * ops.exp (-t.altitude / 8000)) * t.velocity * t.velocity
    else t.maxQ)
  else t.maxQ

/-- The three telemetry fields `calculateOrbitalParams()` writes. -/
def orbVel (ops : Ops) (t : Telemetry) : ℚ :=
  ops.sqrt (g0 * earthRadius * earthRadius / (earthRadius + t.altitude))

def orbApogee (t : Telemetry) : ℚ :=
  if t.velocity > 0 then
    (if -(g0 * earthRadius * earthRadius) / (2 * (t.velocity * t.velocity / 2 -
        g0 * earthRadius * earthRadius / (earthRadius + t.altitude))) > 0 then
      (-(g0 * earthRadius * earthRadius) / (2 * (t.velocity * t.velocity / 2 -
        g0 * earthRadius * earthRadius / (earthRadius + t.altitude))) * 2 -
        (earthRadius + t.altitude)) / 1000
    else t.apogee)
  else t.apogee

def orbPerigee (t : Telemetry) : ℚ :=
  if t.velocity > 0 then
    (if -(g0 * earthRadius * earthRadius) / (2 * (t.velocity * t.velocity / 2 -
        g0 * earthRadius * earthRadius / (earthRadius + t.altitude))) > 0 then
      t.altitude / 1000
    else t.perigee)
  else t.perigee

/-- Counterexample to C1 as stated: in `ABORTED_STOPPED` the tick is not
a no-op on `FlightState` — the mission clock advances. -/
def c1Cex : Engine :=
  { state := { initialState with phase := .ABORTED_STOPPED }
    telemetry := initialTelemetry }

/-- Counterexample to C3 as stated: a `SECOND_STAGE` tick started at a
mass of exactly stage-2 dry mass + payload (26 800 kg) burns straight
through that floor — the code never clamps mass. -/
def c3Cex : Engine :=
  { state := { initialState with phase := .SECOND_STAGE, stageNumber := 2 }
    telemetry := { initialTelemetry with
      altitude := 200000, velocity := 5000
      mass := secondStage.dryMass + payload } }

theorem updateEnvironment_state (ops : Ops) (e : Engine) :
    (updateEnvironment ops e).state = e.state := rfl

theorem calculateOrbitalParams_state (ops : Ops) (e : Engine) :
    (calculateOrbitalParams ops e).state = e.state := rfl

theorem updateEnvironmentT_altitude (ops : Ops) (t : Telemetry) :
    (updateEnvironmentT ops t).altitude = t.altitude := by
  simp only [updateEnvironmentT]; split_ifs <;> rfl

theorem updateEnvironmentT_velocity (ops : Ops) (t : Telemetry) :
    (updateEnvironmentT ops t).velocity = t.velocity := by
  simp only [updateEnvironmentT]; split_ifs <;> rfl

theorem updateEnvironmentT_mass (ops : Ops) (t : Telemetry) :
    (updateEnvironmentT ops t).mass = t.mass := by
  simp only [updateEnvironmentT]; split_ifs <;> rfl

theorem updateEnvironmentT_thrust (ops : Ops) (t : Telemetry) :
    (updateEnvironmentT ops t).thrust = t.thrust := by
  simp only [updateEnvironmentT]; split_ifs <;> rfl

theorem updateEnvironmentT_propellantRemaining (ops : Ops) (t : Telemetry) :
    (updateEnvironmentT ops t).propellantRemaining = t.propellantRemaining := by
  simp only [updateEnvironmentT]; split_ifs <;> rfl

theorem updateEnvironmentT_stage1BurnTime (ops : Ops) (t : Telemetry) :
    (updateEnvironmentT ops t).stage1BurnTime = t.stage1BurnTime := by
  simp only [updateEnvironmentT]; split_ifs <;> rfl

theorem updateEnvironmentT_stage2BurnTime (ops : Ops) (t : Telemetry) :
    (updateEnvironmentT ops t).stage2BurnTime = t.stage2BurnTime := by
  simp only [updateEnvironmentT]; split_ifs <;> rfl

theorem calculateOrbitalParamsT_altitude (ops : Ops) (t : Telemetry) :
    (calculateOrbitalParamsT ops t).altitude = t.altitude := by
  simp only [calculateOrbitalParamsT]; split_ifs <;> rfl

theorem calculateOrbitalParamsT_velocity (ops : Ops) (t : Telemetry) :
    (calculateOrbitalParamsT ops t).velocity = t.velocity := by
  simp only [calculateOrbitalParamsT]; split_ifs <;> rfl

theorem calculateOrbitalParamsT_mass (ops : Ops) (t : Telemetry) :
    (calculateOrbitalParamsT ops t).mass = t.mass := by
  simp only [calculateOrbitalParamsT]; split_ifs <;> rfl

theorem calculateOrbitalParamsT_thrust (ops : Ops) (t : Telemetry) :
    (calculateOrbitalParamsT ops t).thrust = t.thrust := by
  simp only [calculateOrbitalParamsT]; split_ifs <;> rfl

theorem calculateOrbitalParamsT_maxQ (ops : Ops) (t : Telemetry) :
    (calculateOrbitalParamsT ops t).maxQ = t.maxQ := by
  simp only [calculateOrbitalParamsT]; split_ifs <;> rfl

theorem calculateOrbitalParamsT_dynamicPressure (ops : Ops) (t : Telemetry) :
    (calculateOrbitalParamsT ops t).dynamicPressure = t.dynamicPressure := by
  simp only [calculateOrbitalParamsT]; split_ifs <;> rfl

theorem calculateOrbitalParamsT_propellantRemaining (ops : Ops) (t : Telemetry) :
    (calculateOrbitalParamsT ops t).propellantRemaining = t.propellantRemaining := by
  simp only [calculateOrbitalParamsT]; split_ifs <;> rfl

theorem calculateOrbitalParamsT_stage1BurnTime (ops : Ops) (t : Telemetry) :
    (calculateOrbitalParamsT ops t).stage1BurnTime = t.stage1BurnTime := by
  simp only [calculateOrbitalParamsT]; split_ifs <;> rfl

theorem calculateOrbitalParamsT_stage2BurnTime (ops : Ops) (t : Telemetry) :
    (calculateOrbitalParamsT ops t).stage2BurnTime = t.stage2BurnTime := by
  simp only [calculateOrbitalParamsT]; split_ifs <;> rfl

theorem updateEnvironmentT_propellantRemaining2 (ops : Ops) (t : Telemetry) :
    (updateEnvironmentT ops t).propellantRemaining = t.propellantRemaining := by
  simp only [updateEnvironmentT]; split_ifs <;> rfl

/-- Fields that none of the four transition checks ever writes, per step. -/
theorem transLaunchAscent_frame (e : Engine) :
    (transLaunchAscent e).state.missionTime = e.state.missionTime ∧
    (transLaunchAscent e).state.throttleLevel = e.state.throttleLevel ∧
    (transLaunchAscent e).telemetry.maxQ = e.telemetry.maxQ ∧
    (transLaunchAscent e).telemetry.dynamicPressure = e.telemetry.dynamicPressure ∧
    (transLaunchAscent e).telemetry.propellantRemaining = e.telemetry.propellantRemaining ∧
    (transLaunchAscent e).telemetry.stage1BurnTime = e.telemetry.stage1BurnTime ∧
    (transLaunchAscent e).telemetry.stage2BurnTime = e.telemetry.stage2BurnTime := by
  unfold transLaunchAscent; split_ifs <;> exact ⟨rfl, rfl, rfl, rfl, rfl, rfl, rfl⟩

theorem transMeco_frame (e : Engine) :
    (transMeco e).state.missionTime = e.state.missionTime ∧
    (transMeco e).state.throttleLevel = e.state.throttleLevel ∧
    (transMeco e).telemetry.maxQ = e.telemetry.maxQ ∧
    (transMeco e).telemetry.dynamicPressure = e.telemetry.dynamicPressure ∧
    (transMeco e).telemetry.propellantRemaining = e.telemetry.propellantRemaining ∧
    (transMeco e).telemetry.stage1BurnTime = e.telemetry.stage1BurnTime ∧
    (transMeco e).telemetry.stage2BurnTime = e.telemetry.stage2BurnTime := by
  unfold transMeco; split_ifs <;> exact ⟨rfl, rfl, rfl, rfl, rfl, rfl, rfl⟩

theorem transSep_frame (e : Engine) :
    (transSep e).state.missionTime = e.state.missionTime ∧
    (transSep e).state.throttleLevel = e.state.throttleLevel ∧
    (transSep e).telemetry.maxQ = e.telemetry.maxQ ∧
    (transSep e).telemetry.dynamicPressure = e.telemetry.dynamicPressure ∧
    (transSep e).telemetry.propellantRemaining = e.telemetry.propellantRemaining ∧
    (transSep e).telemetry.stage1BurnTime = e.telemetry.stage1BurnTime ∧
    (transSep e).telemetry.stage2BurnTime = e.telemetry.stage2BurnTime := by
  unfold transSep separateStage; split_ifs <;> exact ⟨rfl, rfl, rfl, rfl, rfl, rfl, rfl⟩

theorem transOrbit_frame (e : Engine) :
    (transOrbit e).state.missionTime = e.state.missionTime ∧
    (transOrbit e).state.throttleLevel = e.state.throttleLevel ∧
    (transOrbit e).telemetry.maxQ = e.telemetry.maxQ ∧
    (transOrbit e).telemetry.dynamicPressure = e.telemetry.dynamicPressure ∧
    (transOrbit e).telemetry.propellantRemaining = e.telemetry.propellantRemaining ∧
    (transOrbit e).telemetry.stage1BurnTime = e.telemetry.stage1BurnTime ∧
    (transOrbit e).telemetry.stage2BurnTime = e.telemetry.stage2BurnTime := by
  unfold transOrbit; split_ifs <;> exact ⟨rfl, rfl, rfl, rfl, rfl, rfl, rfl⟩

/-- Source `checkPhaseTransitions` never touches the mission clock, the throttle,
the dynamic-pressure telemetry or the propellant gauge. -/
theorem checkPhaseTransitions_missionTime (e : Engine) :
    (checkPhaseTransitions e).state.missionTime = e.state.missionTime := by
  unfold checkPhaseTransitions
  rw [(transOrbit_frame _).1, (transSep_frame _).1, (transMeco_frame _).1,
    (transLaunchAscent_frame _).1]

theorem checkPhaseTransitions_throttleLevel (e : Engine) :
    (checkPhaseTransitions e).state.throttleLevel = e.state.throttleLevel := by
  unfold checkPhaseTransitions
  rw [(transOrbit_frame _).2.1, (transSep_frame _).2.1, (transMeco_frame _).2.1,
    (transLaunchAscent_frame _).2.1]

theorem checkPhaseTransitions_maxQ (e : Engine) :
    (checkPhaseTransitions e).telemetry.maxQ = e.telemetry.maxQ := by
  unfold checkPhaseTransitions
  rw [(transOrbit_frame _).2.2.1, (transSep_frame _).2.2.1, (transMeco_frame _).2.2.1,
    (transLaunchAscent_frame _).2.2.1]

theorem checkPhaseTransitions_dynamicPressure (e : Engine) :
    (checkPhaseTransitions e).telemetry.dynamicPressure = e.telemetry.dynamicPressure := by
  unfold checkPhaseTransitions
  rw [(transOrbit_frame _).2.2.2.1, (transSep_frame _).2.2.2.1,
    (transMeco_frame _).2.2.2.1, (transLaunchAscent_frame _).2.2.2.1]

theorem checkPhaseTransitions_propellantRemaining (e : Engine) :
    (checkPhaseTransitions e).telemetry.propellantRemaining = e.telemetry.propellantRemaining := by
  unfold checkPhaseTransitions
  rw [(transOrbit_frame _).2.2.2.2.1, (transSep_frame _).2.2.2.2.1,
    (transMeco_frame _).2.2.2.2.1, (transLaunchAscent_frame _).2.2.2.2.1]

theorem transLaunchAscent_id (e : Engine) (h : e.state.phase ≠ .LAUNCH) :
    transLaunchAscent e = e := by
  unfold transLaunchAscent; rw [if_neg (fun hc => h hc.1)]

theorem transMeco_id (e : Engine) (h : e.state.phase ≠ .ASCENT) :
    transMeco e = e := by
  unfold transMeco; rw [if_neg (fun hc => h hc.1)]

theorem transSep_id (e : Engine) (h : e.state.phase ≠ .MECO) :
    transSep e = e := by
  unfold transSep; rw [if_neg (fun hc => h hc.1)]

theorem transOrbit_id (e : Engine) (h : e.state.phase ≠ .SECOND_STAGE) :
    transOrbit e = e := by
  unfold transOrbit; rw [if_neg (fun hc => h hc.1)]

/-- On a phase that appears in none of the four transition guards,
`checkPhaseTransitions` is the identity. -/
theorem checkPhaseTransitions_id (e : Engine)
    (h : e.state.phase ≠ .LAUNCH ∧ e.state.phase ≠ .ASCENT ∧
      e.state.phase ≠ .MECO ∧ e.state.phase ≠ .SECOND_STAGE) :
    checkPhaseTransitions e = e := by
  obtain ⟨h1, h2, h3, h4⟩ := h
  unfold checkPhaseTransitions
  rw [transLaunchAscent_id e h1, transMeco_id e h2, transSep_id e h3, transOrbit_id e h4]

theorem advanceClock_telemetry (e : Engine) :
    (advanceClock e).telemetry = e.telemetry := rfl

theorem advanceClock_phase (e : Engine) :
    (advanceClock e).state.phase = e.state.phase := rfl

theorem advanceClock_throttleLevel (e : Engine) :
    (advanceClock e).state.throttleLevel = e.state.throttleLevel := rfl

/-! Section: Decomposition of one tick by phase -/

theorem updateSimulation_absorbing (ops : Ops) (e : Engine)
    (h : e.state.phase = .PAD ∨ e.state.phase = .ORBIT ∨ e.state.phase = .LANDED) :
    updateSimulation ops e = e := by
  simp only [updateSimulation]
  rw [if_pos h]

theorem advanceClock_keepPhase (e : Engine) (p : Phase) (h : e.state.phase = p) :
    (advanceClock e).state.phase = p := h

theorem updateSimulation_ascent (ops : Ops) (e : Engine) (h : e.state.phase = .ASCENT) :
    updateSimulation ops e =
      checkPhaseTransitions (calculateOrbitalParams ops
        (updateEnvironment ops (simulateAscent ops (advanceClock e)))) := by
  simp only [updateSimulation]
  rw [if_neg (by simp [h]), if_pos (by simp [h])]
  simp only [dispatchPhase, advanceClock_keepPhase e _ h]

theorem updateSimulation_secondStage (ops : Ops) (e : Engine)
    (h : e.state.phase = .SECOND_STAGE) :
    updateSimulation ops e =
      checkPhaseTransitions (calculateOrbitalParams ops
        (updateEnvironment ops (simulateSecondStage ops (advanceClock e)))) := by
  simp only [updateSimulation]
  rw [if_neg (by simp [h]), if_pos (by simp [h])]
  simp only [dispatchPhase, advanceClock_keepPhase e _ h]

theorem updateSimulation_meco (ops : Ops) (e : Engine) (h : e.state.phase = .MECO) :
    updateSimulation ops e =
      checkPhaseTransitions (calculateOrbitalParams ops
        (updateEnvironment ops (simulateMECO (advanceClock e)))) := by
  simp only [updateSimulation]
  rw [if_neg (by simp [h]), if_pos (by simp [h])]
  simp only [dispatchPhase, advanceClock_keepPhase e _ h]

theorem updateSimulation_abort (ops : Ops) (e : Engine) (h : e.state.phase = .ABORT) :
    updateSimulation ops e =
      checkPhaseTransitions (calculateOrbitalParams ops
        (updateEnvironment ops (simulateAbort e))) := by
  simp only [updateSimulation]
  rw [if_neg (by simp [h]), if_neg (by simp [h])]
  simp only [dispatchPhase, h]

theorem updateSimulation_stopped (ops : Ops) (e : Engine)
    (h : e.state.phase = .ABORTED_STOPPED) :
    updateSimulation ops e =
      checkPhaseTransitions (calculateOrbitalParams ops
        (updateEnvironment ops (advanceClock e))) := by
  simp only [updateSimulation]
  rw [if_neg (by simp [h]), if_pos (by simp [h])]
  simp only [dispatchPhase, advanceClock_keepPhase e _ h]

/-! Section: Claim C6: the anomaly thresholds are strict comparisons -/

/-- C6: `checkAnomalies()` uses strict greater-than comparisons: a thrust
record (always CRITICAL) is returned iff `thrust > maxThrust`, a
dynamic-pressure WARNING iff `dynamicPressure > maxQ`, a G-force CRITICAL
iff `|gForce| > maxG`; in particular, with thrust exactly at the
configured `maxThrust` limit no CRITICAL thrust anomaly is returned. -/
theorem claim_C6 (t : Telemetry) :
    (((checkAnomalies t).any fun a => a.parameter == "thrust" && a.severity == "CRITICAL") = true ↔
      t.thrust > limits.maxThrust) ∧
    (((checkAnomalies t).any fun a => a.parameter == "dynamicPressure" && a.severity == "WARNING") = true ↔
      t.dynamicPressure > limits.maxQ) ∧
    (((checkAnomalies t).any fun a => a.parameter == "gForce" && a.severity == "CRITICAL") = true ↔
      |t.gForce| > limits.maxG) ∧
    (t.thrust = limits.maxThrust →
      ((checkAnomalies t).any fun a => a.parameter == "thrust" && a.severity == "CRITICAL") = false) := by
  refine ⟨?_, ?_, ?_, ?_⟩
  · unfold checkAnomalies
    split_ifs with h1 h2 h3 <;> simp_all [limits]
  · unfold checkAnomalies
    split_ifs with h1 h2 h3 <;> simp_all [limits]
  · unfold checkAnomalies
    split_ifs with h1 h2 h3 <;> simp_all [limits]
  · intro h
    unfold checkAnomalies
    split_ifs with h1 h2 h3 <;> simp_all [limits]

theorem claim_C6_witness :
    c6Telemetry.thrust = limits.maxThrust ∧
      ((checkAnomalies c6Telemetry).any fun a =>
        a.parameter == "thrust" && a.severity == "CRITICAL") = false :=
  ⟨rfl, (claim_C6 c6Telemetry).2.2.2 rfl⟩

/-! Section: Claim C7: the anomaly detector never mutates the engine -/

/-- C7: `checkAnomalies()` only reads the flight state and telemetry and
returns a fresh list of anomaly records; the engine — in particular the
phase and the abort flag — is left unchanged. -/
theorem claim_C7 (e : Engine) :
    (checkAnomaliesOp e).1 = e ∧
    (checkAnomaliesOp e).1.state.phase = e.state.phase ∧
    (checkAnomaliesOp e).1.state.abortFlag = e.state.abortFlag ∧
    (checkAnomaliesOp e).2 = checkAnomalies e.telemetry :=
  ⟨rfl, rfl, rfl, rfl⟩

/-! Section: Claim C10: the guidance update overrides a caller-set throttle -/

/-- Below 25 kPa of dynamic pressure, the guidance update restores any
throttle sitting under 100 back to 100, on any stage. -/
theorem applyPitchProgram_state (e : Engine) :
    (applyPitchProgram e).state = e.state := by
  unfold applyPitchProgram; split_ifs <;> rfl

theorem applyPitchProgram_dynamicPressure (e : Engine) :
    (applyPitchProgram e).telemetry.dynamicPressure = e.telemetry.dynamicPressure := by
  unfold applyPitchProgram; split_ifs <;> rfl

theorem applyThrottlePolicy_restore (e : Engine)
    (hq : e.telemetry.dynamicPressure < 25000) (ht : e.state.throttleLevel < 100) :
    (applyThrottlePolicy e).state.throttleLevel = 100 := by
  unfold applyThrottlePolicy
  have h35 : ¬ (e.telemetry.dynamicPressure > 35000 ∧ e.state.stageNumber = 1) := by
    rintro ⟨h, -⟩; linarith
  rw [if_neg h35, if_pos ⟨hq, ht⟩]

theorem updateGuidance_restore (e : Engine)
    (hq : e.telemetry.dynamicPressure < 25000) (ht : e.state.throttleLevel < 100) :
    (updateGuidance e).state.throttleLevel = 100 := by
  unfold updateGuidance
  refine applyThrottlePolicy_restore _ ?_ ?_
  · rw [applyPitchProgram_dynamicPressure]; exact hq
  · rw [applyPitchProgram_state]; exact ht

/-- The ascent physics step ends with throttle 100 whenever it starts
below 25 kPa of dynamic pressure with a throttle under 100. -/
theorem updateGuidance_restore_of_eq (e e' : Engine)
    (hs : e'.state = e.state) (hd : e'.telemetry.dynamicPressure = e.telemetry.dynamicPressure)
    (hq : e.telemetry.dynamicPressure < 25000) (ht : e.state.throttleLevel < 100) :
    (updateGuidance e').state.throttleLevel = 100 :=
  updateGuidance_restore e' (by rw [hd]; exact hq) (by rw [hs]; exact ht)

theorem simulateAscent_restore (ops : Ops) (e : Engine)
    (hq : e.telemetry.dynamicPressure < 25000) (ht : e.state.throttleLevel < 100) :
    (simulateAscent ops e).state.throttleLevel = 100 := by
  simp only [simulateAscent]
  split_ifs with h <;> exact updateGuidance_restore_of_eq e _ rfl rfl hq ht

/-- C10: a throttle set below 100 with `setThrottle` does not survive a
tick in `ASCENT` or `SECOND_STAGE` whose dynamic pressure is below
25 000 Pa: the guidance update resets it to 100 on any stage. -/
theorem claim_C10 (ops : Ops) (l : ℚ) (e : Engine) :
    ((setThrottle l e).state.throttleLevel = max 0 (min 100 l)) ∧
    (e.telemetry.dynamicPressure < 25000 → e.state.throttleLevel < 100 →
      (updateGuidance e).state.throttleLevel = 100) ∧
    ((e.state.phase = .ASCENT ∨ e.state.phase = .SECOND_STAGE) →
      e.telemetry.dynamicPressure < 25000 → l < 100 →
      (updateSimulation ops (setThrottle l e)).state.throttleLevel = 100) := by
  refine ⟨rfl, fun hq ht => updateGuidance_restore e hq ht, fun hp hq hl => ?_⟩
  have hset : (setThrottle l e).state.throttleLevel < 100 := by
    simp only [setThrottle]
    exact max_lt (by norm_num) (lt_of_le_of_lt (min_le_right _ _) hl)
  have hqset : (setThrottle l e).telemetry.dynamicPressure < 25000 := hq
  have hrestore : ∀ e' : Engine, e'.telemetry.dynamicPressure < 25000 →
      e'.state.throttleLevel < 100 →
      (checkPhaseTransitions (calculateOrbitalParams ops
        (updateEnvironment ops (simulateAscent ops (advanceClock e'))))).state.throttleLevel
        = 100 := by
    intro e' hq' ht'
    rw [checkPhaseTransitions_throttleLevel, calculateOrbitalParams_state,
      updateEnvironment_state]
    exact simulateAscent_restore ops (advanceClock e') hq' ht'
  rcases hp with hp | hp
  · rw [updateSimulation_ascent ops (setThrottle l e)
      (show (setThrottle l e).state.phase = .ASCENT from hp)]
    exact hrestore _ hqset hset
  · rw [updateSimulation_secondStage ops (setThrottle l e)
      (show (setThrottle l e).state.phase = .SECOND_STAGE from hp)]
    exact hrestore _ hqset hset

theorem claim_C10_witness :
    (setThrottle 50 c10Engine).state.throttleLevel = max 0 (min 100 50) ∧
    (updateSimulation opsZero (setThrottle 50 c10Engine)).state.throttleLevel = 100 :=
  ⟨(claim_C10 opsZero 50 c10Engine).1,
    (claim_C10 opsZero 50 c10Engine).2.2 (Or.inr rfl) (by norm_num [c10Engine, initialTelemetry]) (by norm_num)⟩

/-! Section: Claim C8: the landing sequencer's band selection -/

/-- On a `LANDING` tick, the engine-status label written by
`simulateLanding` is exactly the label of the band `landingBand` selects
from the current altitude and the landing flags. -/
theorem simulateLanding_status (ops : Ops) (e : Engine) (h : e.state.phase = .LANDING) :
    (simulateLanding ops e).state.engineStatus =
      statusOfBand (landingBand e.telemetry.altitude e.state.landingBurnStarted
        e.state.landingLegsDeployed) := by
  have hne : ¬ e.state.phase = .LANDED := by rw [h]; intro hc; cases hc
  simp only [simulateLanding, landingBand, statusOfBand]
  rw [if_neg hne]
  split_ifs <;> rfl

/-- C8: the landing band is a pure function of the current altitude and
the `landingBurnStarted`/`landingLegsDeployed` flags; altitude 60000 m
selects band 1 with thrust exactly 1 800 000 N, altitude 1000 m with
`landingBurnStarted = false` selects band 4 with thrust 0, and altitude
10 m selects band 6 (terminal touchdown). -/
theorem claim_C8 (ops : Ops) (e : Engine) (b l : Bool) :
    (landingBand 60000 b l = 1) ∧
    (landingBand 1000 false l = 4) ∧
    (landingBand 10 b l = 6) ∧
    (∀ alt b' l1 l2, landingBand alt b' l1 = landingBand alt b' l2) ∧
    (e.state.phase = .LANDING →
      (simulateLanding ops e).state.engineStatus =
        statusOfBand (landingBand e.telemetry.altitude e.state.landingBurnStarted
          e.state.landingLegsDeployed)) ∧
    (e.state.phase = .LANDING → e.telemetry.altitude = 60000 →
      (simulateLanding ops e).telemetry.thrust = 1800000) ∧
    (e.state.phase = .LANDING → e.telemetry.altitude = 1000 →
      e.state.landingBurnStarted = false →
      (simulateLanding ops e).telemetry.thrust = 0) ∧
    (e.state.phase = .LANDING → e.telemetry.altitude = 10 →
      (simulateLanding ops e).state.engineStatus = "TOUCHDOWN BURN") := by
  have hLANDED : ∀ h : e.state.phase = .LANDING, ¬ e.state.phase = .LANDED := by
    intro h; rw [h]; intro hc; cases hc
  refine ⟨?_, ?_, ?_, ?_, fun h => simulateLanding_status ops e h, ?_, ?_, ?_⟩
  · unfold landingBand; rw [if_pos (by norm_num)]
  · unfold landingBand; norm_num
  · unfold landingBand; norm_num
  · intro alt b' l1 l2; rfl
  · intro h halt
    simp only [simulateLanding]
    rw [if_neg (hLANDED h), halt]
    rw [if_pos (by norm_num : (60000 : ℚ) > 50000)]
  · intro h halt hb
    simp only [simulateLanding]
    rw [if_neg (hLANDED h), halt, hb]
    rw [if_neg (by norm_num : ¬ (1000 : ℚ) > 50000),
      if_neg (by norm_num : ¬ (1000 : ℚ) > 7000),
      if_neg (by norm_num : ¬ (1000 : ℚ) > 2000),
      if_pos (by norm_num : (1000 : ℚ) > 500 ∧ (false = false))]
    split_ifs <;> rfl
  · intro h halt
    simp only [simulateLanding]
    rw [if_neg (hLANDED h), halt]
    rw [if_neg (by norm_num : ¬ (10 : ℚ) > 50000),
      if_neg (by norm_num : ¬ (10 : ℚ) > 7000),
      if_neg (by norm_num : ¬ (10 : ℚ) > 2000)]
    rw [if_neg (fun hc => absurd hc.1 (by norm_num) :
      ¬ ((10 : ℚ) > 500 ∧ (e.state.landingBurnStarted = false)))]
    rw [if_neg (fun hc => absurd hc.2 (by norm_num) :
      ¬ (e.state.landingBurnStarted = true ∧ (10 : ℚ) > 20))]
    rw [if_pos (by norm_num : (10 : ℚ) ≤ 20 ∧ (10 : ℚ) > 0)]

theorem claim_C8_witness :
    (simulateLanding opsZero c8High).telemetry.thrust = 1800000 ∧
    (simulateLanding opsZero c8Coast).telemetry.thrust = 0 ∧
    (simulateLanding opsZero c8Touch).state.engineStatus = "TOUCHDOWN BURN" :=
  ⟨(claim_C8 opsZero c8High true true).2.2.2.2.2.1 rfl rfl,
   (claim_C8 opsZero c8Coast true true).2.2.2.2.2.2.1 rfl rfl rfl,
   (claim_C8 opsZero c8Touch true true).2.2.2.2.2.2.2 rfl rfl⟩

/-! Section: Claim C4: the propellant gauge stays in [0,100] and empties on time -/

theorem propInv_transfer {x y : Engine}
    (h0 : x.telemetry.propellantRemaining = y.telemetry.propellantRemaining)
    (h1 : x.telemetry.stage1BurnTime = y.telemetry.stage1BurnTime)
    (h2 : x.telemetry.stage2BurnTime = y.telemetry.stage2BurnTime)
    (h : PropellantInv y) : PropellantInv x := by
  unfold PropellantInv at *
  rw [h0, h1, h2]
  exact h

theorem applyPitchProgram_propellantRemaining (e : Engine) :
    (applyPitchProgram e).telemetry.propellantRemaining = e.telemetry.propellantRemaining := by
  unfold applyPitchProgram; split_ifs <;> rfl

theorem applyPitchProgram_stage1BurnTime (e : Engine) :
    (applyPitchProgram e).telemetry.stage1BurnTime = e.telemetry.stage1BurnTime := by
  unfold applyPitchProgram; split_ifs <;> rfl

theorem applyPitchProgram_stage2BurnTime (e : Engine) :
    (applyPitchProgram e).telemetry.stage2BurnTime = e.telemetry.stage2BurnTime := by
  unfold applyPitchProgram; split_ifs <;> rfl

theorem applyPitchProgram_mass (e : Engine) :
    (applyPitchProgram e).telemetry.mass = e.telemetry.mass := by
  unfold applyPitchProgram; split_ifs <;> rfl

theorem applyPitchProgram_maxQ (e : Engine) :
    (applyPitchProgram e).telemetry.maxQ = e.telemetry.maxQ := by
  unfold applyPitchProgram; split_ifs <;> rfl

theorem applyThrottlePolicy_telemetry (e : Engine) :
    (applyThrottlePolicy e).telemetry = e.telemetry := by
  unfold applyThrottlePolicy; split_ifs <;> rfl

theorem updateGuidance_propellantRemaining (e : Engine) :
    (updateGuidance e).telemetry.propellantRemaining = e.telemetry.propellantRemaining := by
  unfold updateGuidance
  rw [applyThrottlePolicy_telemetry, applyPitchProgram_propellantRemaining]

theorem updateGuidance_stage1BurnTime (e : Engine) :
    (updateGuidance e).telemetry.stage1BurnTime = e.telemetry.stage1BurnTime := by
  unfold updateGuidance
  rw [applyThrottlePolicy_telemetry, applyPitchProgram_stage1BurnTime]

theorem updateGuidance_stage2BurnTime (e : Engine) :
    (updateGuidance e).telemetry.stage2BurnTime = e.telemetry.stage2BurnTime := by
  unfold updateGuidance
  rw [applyThrottlePolicy_telemetry, applyPitchProgram_stage2BurnTime]

theorem updateGuidance_mass (e : Engine) :
    (updateGuidance e).telemetry.mass = e.telemetry.mass := by
  unfold updateGuidance
  rw [applyThrottlePolicy_telemetry, applyPitchProgram_mass]

theorem updateGuidance_maxQ (e : Engine) :
    (updateGuidance e).telemetry.maxQ = e.telemetry.maxQ := by
  unfold updateGuidance
  rw [applyThrottlePolicy_telemetry, applyPitchProgram_maxQ]

/-- The propellant figures `simulateAscent` writes for the active stage. -/
theorem simulateAscent_propellant (ops : Ops) (e : Engine) :
    ((e.state.stageNumber = 1 →
        (simulateAscent ops e).telemetry.stage1BurnTime = e.telemetry.stage1BurnTime + 0.1 ∧
        (simulateAscent ops e).telemetry.stage2BurnTime = e.telemetry.stage2BurnTime ∧
        (simulateAscent ops e).telemetry.propellantRemaining =
          max 0 (100 * (1 - (e.telemetry.stage1BurnTime + 0.1) / firstStage.burnTime))) ∧
      (¬ e.state.stageNumber = 1 →
        (simulateAscent ops e).telemetry.stage2BurnTime = e.telemetry.stage2BurnTime + 0.1 ∧
        (simulateAscent ops e).telemetry.stage1BurnTime = e.telemetry.stage1BurnTime ∧
        (simulateAscent ops e).telemetry.propellantRemaining =
          max 0 (100 * (1 - (e.telemetry.stage2BurnTime + 0.1) / secondStage.burnTime)))) := by
  constructor <;> intro hs <;>
    simp [simulateAscent, hs, updateGuidance_propellantRemaining,
      updateGuidance_stage1BurnTime, updateGuidance_stage2BurnTime]

theorem simulateAscent_propInv (ops : Ops) (e : Engine)
    (h : PropellantInv e) : PropellantInv (simulateAscent ops e) := by
  obtain ⟨h0, h1, h2, h3⟩ := h
  by_cases hs : e.state.stageNumber = 1
  · obtain ⟨hb, hb2, hp⟩ := (simulateAscent_propellant ops e).1 hs
    refine ⟨?_, ?_, ?_, ?_⟩
    · rw [hp]; exact le_max_left _ _
    · rw [hp]
      refine max_le (by norm_num) ?_
      have hd : 0 ≤ (e.telemetry.stage1BurnTime + 0.1) / firstStage.burnTime := by
        apply div_nonneg (by linarith) (by norm_num [firstStage])
      linarith
    · rw [hb]; linarith
    · rw [hb2]; exact h3
  · obtain ⟨hb, hb1, hp⟩ := (simulateAscent_propellant ops e).2 hs
    refine ⟨?_, ?_, ?_, ?_⟩
    · rw [hp]; exact le_max_left _ _
    · rw [hp]
      refine max_le (by norm_num) ?_
      have hd : 0 ≤ (e.telemetry.stage2BurnTime + 0.1) / secondStage.burnTime := by
        apply div_nonneg (by linarith) (by norm_num [secondStage])
      linarith
    · rw [hb1]; exact h2
    · rw [hb]; linarith

theorem simulateIgnition_propFrame (e : Engine) :
    (simulateIgnition e).telemetry.propellantRemaining = e.telemetry.propellantRemaining ∧
    (simulateIgnition e).telemetry.stage1BurnTime = e.telemetry.stage1BurnTime ∧
    (simulateIgnition e).telemetry.stage2BurnTime = e.telemetry.stage2BurnTime := by
  simp only [simulateIgnition]; split_ifs <;> exact ⟨rfl, rfl, rfl⟩

theorem simulateMECO_propFrame (e : Engine) :
    (simulateMECO e).telemetry.propellantRemaining = e.telemetry.propellantRemaining ∧
    (simulateMECO e).telemetry.stage1BurnTime = e.telemetry.stage1BurnTime ∧
    (simulateMECO e).telemetry.stage2BurnTime = e.telemetry.stage2BurnTime :=
  ⟨rfl, rfl, rfl⟩

theorem simulateLanding_propFrame (ops : Ops) (e : Engine) :
    (simulateLanding ops e).telemetry.propellantRemaining = e.telemetry.propellantRemaining ∧
    (simulateLanding ops e).telemetry.stage1BurnTime = e.telemetry.stage1BurnTime ∧
    (simulateLanding ops e).telemetry.stage2BurnTime = e.telemetry.stage2BurnTime := by
  simp only [simulateLanding]; split_ifs <;> exact ⟨rfl, rfl, rfl⟩

theorem simulateAbort_propInv (e : Engine)
    (h : PropellantInv e) : PropellantInv (simulateAbort e) := by
  obtain ⟨h0, h1, h2, h3⟩ := h
  simp only [simulateAbort]
  split_ifs with hstop
  · exact ⟨h0, h1, h2, h3⟩
  all_goals exact ⟨le_max_left _ _, max_le (by norm_num) (by linarith), h2, h3⟩

theorem separateStage_propFrame (e : Engine) :
    (separateStage e).telemetry.propellantRemaining = e.telemetry.propellantRemaining ∧
    (separateStage e).telemetry.stage1BurnTime = e.telemetry.stage1BurnTime ∧
    (separateStage e).telemetry.stage2BurnTime = e.telemetry.stage2BurnTime := by
  unfold separateStage; split_ifs <;> exact ⟨rfl, rfl, rfl⟩

theorem checkPhaseTransitions_propFrame (e : Engine) :
    (checkPhaseTransitions e).telemetry.propellantRemaining = e.telemetry.propellantRemaining ∧
    (checkPhaseTransitions e).telemetry.stage1BurnTime = e.telemetry.stage1BurnTime ∧
    (checkPhaseTransitions e).telemetry.stage2BurnTime = e.telemetry.stage2BurnTime := by
  refine ⟨checkPhaseTransitions_propellantRemaining e, ?_, ?_⟩ <;>
    [skip; skip] <;> unfold checkPhaseTransitions
  · rw [(transOrbit_frame _).2.2.2.2.2.1, (transSep_frame _).2.2.2.2.2.1,
      (transMeco_frame _).2.2.2.2.2.1, (transLaunchAscent_frame _).2.2.2.2.2.1]
  · rw [(transOrbit_frame _).2.2.2.2.2.2, (transSep_frame _).2.2.2.2.2.2,
      (transMeco_frame _).2.2.2.2.2.2, (transLaunchAscent_frame _).2.2.2.2.2.2]

theorem updateEnvironment_propFrame (ops : Ops) (e : Engine) :
    (updateEnvironment ops e).telemetry.propellantRemaining = e.telemetry.propellantRemaining ∧
    (updateEnvironment ops e).telemetry.stage1BurnTime = e.telemetry.stage1BurnTime ∧
    (updateEnvironment ops e).telemetry.stage2BurnTime = e.telemetry.stage2BurnTime :=
  ⟨updateEnvironmentT_propellantRemaining2 ops e.telemetry,
   updateEnvironmentT_stage1BurnTime ops e.telemetry,
   updateEnvironmentT_stage2BurnTime ops e.telemetry⟩

theorem calculateOrbitalParams_propFrame (ops : Ops) (e : Engine) :
    (calculateOrbitalParams ops e).telemetry.propellantRemaining = e.telemetry.propellantRemaining ∧
    (calculateOrbitalParams ops e).telemetry.stage1BurnTime = e.telemetry.stage1BurnTime ∧
    (calculateOrbitalParams ops e).telemetry.stage2BurnTime = e.telemetry.stage2BurnTime :=
  ⟨calculateOrbitalParamsT_propellantRemaining ops e.telemetry,
   calculateOrbitalParamsT_stage1BurnTime ops e.telemetry,
   calculateOrbitalParamsT_stage2BurnTime ops e.telemetry⟩

theorem dispatchPhase_propInv (ops : Ops) (e : Engine)
    (h : PropellantInv e) : PropellantInv (dispatchPhase ops e) := by
  cases hp : e.state.phase <;> simp only [dispatchPhase, hp]
  case IGNITION =>
    exact propInv_transfer (simulateIgnition_propFrame e).1
      (simulateIgnition_propFrame e).2.1 (simulateIgnition_propFrame e).2.2 h
  case LAUNCH => exact simulateAscent_propInv ops e h
  case ASCENT => exact simulateAscent_propInv ops e h
  case MECO => exact h
  case STAGE_SEP => exact h
  case SECOND_STAGE => exact simulateAscent_propInv ops e h
  case ABORT => exact simulateAbort_propInv e h
  case LANDING =>
    exact propInv_transfer (simulateLanding_propFrame ops e).1
      (simulateLanding_propFrame ops e).2.1 (simulateLanding_propFrame ops e).2.2 h
  all_goals exact h

/-- C4: the initial engine satisfies the propellant invariant, one tick of
`updateSimulation` preserves it (so `propellantRemaining ∈ [0,100]` at
every tick of every run), and the ascent step displays exactly 0 from the
tick on which the active stage's accumulated burn time reaches its rated
burn time. -/
theorem claim_C4 (ops : Ops) (e : Engine) :
    PropellantInv initialEngine ∧
    (PropellantInv e → PropellantInv (updateSimulation ops e)) ∧
    (e.state.stageNumber = 1 →
      (simulateAscent ops e).telemetry.stage1BurnTime ≥ firstStage.burnTime →
      (simulateAscent ops e).telemetry.propellantRemaining = 0) ∧
    (¬ e.state.stageNumber = 1 →
      (simulateAscent ops e).telemetry.stage2BurnTime ≥ secondStage.burnTime →
      (simulateAscent ops e).telemetry.propellantRemaining = 0) := by
  refine ⟨⟨by norm_num [initialEngine, initialTelemetry],
      by norm_num [initialEngine, initialTelemetry],
      by norm_num [initialEngine, initialTelemetry],
      by norm_num [initialEngine, initialTelemetry]⟩, ?_, ?_, ?_⟩
  · intro h
    unfold updateSimulation
    split_ifs with h1 h2
    · exact h
    all_goals {
      refine propInv_transfer (checkPhaseTransitions_propFrame _).1
        (checkPhaseTransitions_propFrame _).2.1 (checkPhaseTransitions_propFrame _).2.2 ?_
      refine propInv_transfer (calculateOrbitalParams_propFrame ops _).1
        (calculateOrbitalParams_propFrame ops _).2.1 (calculateOrbitalParams_propFrame ops _).2.2 ?_
      refine propInv_transfer (updateEnvironment_propFrame ops _).1
        (updateEnvironment_propFrame ops _).2.1 (updateEnvironment_propFrame ops _).2.2 ?_
      exact dispatchPhase_propInv ops _ h }
  · intro hs hge
    obtain ⟨hb, -, hp⟩ := (simulateAscent_propellant ops e).1 hs
    rw [hp]
    rw [hb] at hge
    apply max_eq_left
    have hq : (1 : ℚ) ≤ (e.telemetry.stage1BurnTime + 0.1) / firstStage.burnTime := by
      rw [le_div_iff₀ (by norm_num [firstStage] : (0 : ℚ) < firstStage.burnTime)]
      linarith
    linarith
  · intro hs hge
    obtain ⟨hb, -, hp⟩ := (simulateAscent_propellant ops e).2 hs
    rw [hp]
    rw [hb] at hge
    apply max_eq_left
    have hq : (1 : ℚ) ≤ (e.telemetry.stage2BurnTime + 0.1) / secondStage.burnTime := by
      rw [le_div_iff₀ (by norm_num [secondStage] : (0 : ℚ) < secondStage.burnTime)]
      linarith
    linarith

theorem claim_C4_witness :
    PropellantInv (updateSimulation opsZero initialEngine) ∧
    (simulateAscent opsZero c4Engine).telemetry.propellantRemaining = 0 :=
  ⟨(claim_C4 opsZero initialEngine).2.1 (claim_C4 opsZero initialEngine).1,
   (claim_C4 opsZero c4Engine).2.2.1 rfl (by
     rw [((simulateAscent_propellant opsZero c4Engine).1 rfl).1]
     norm_num [c4Engine, initialTelemetry, firstStage])⟩

/-! Section: Claim C5: max-Q is the running maximum of dynamic pressure -/

/-- After the environment update, max-Q is exactly the maximum of the old
max-Q and the freshly computed dynamic pressure. -/
theorem updateEnvironmentT_maxQ_eq (ops : Ops) (t : Telemetry) (h : 0 ≤ t.maxQ) :
    (updateEnvironmentT ops t).maxQ =
      max t.maxQ (updateEnvironmentT ops t).dynamicPressure := by
  simp only [updateEnvironmentT]
  by_cases halt : t.altitude < atmosphereHeight
  · rw [if_pos halt]
    dsimp only
    split_ifs with hc
    · exact (max_eq_right (le_of_lt hc)).symm
    · exact (max_eq_left (not_lt.mp hc)).symm
  · rw [if_neg halt]
    exact (max_eq_left h).symm

theorem updateEnvironmentT_maxQ_le (ops : Ops) (t : Telemetry) :
    t.maxQ ≤ (updateEnvironmentT ops t).maxQ := by
  simp only [updateEnvironmentT]
  by_cases halt : t.altitude < atmosphereHeight
  · rw [if_pos halt]
    dsimp only
    split_ifs with hc
    · exact le_of_lt hc
    · exact le_refl _
  · rw [if_neg halt]

theorem simulateIgnition_maxQ (e : Engine) :
    (simulateIgnition e).telemetry.maxQ = e.telemetry.maxQ := by
  simp only [simulateIgnition]; split_ifs <;> rfl

theorem simulateAscent_maxQ (ops : Ops) (e : Engine) :
    (simulateAscent ops e).telemetry.maxQ = e.telemetry.maxQ := by
  simp only [simulateAscent]
  split_ifs <;> simp [updateGuidance_maxQ]

theorem simulateMECO_maxQ (e : Engine) :
    (simulateMECO e).telemetry.maxQ = e.telemetry.maxQ := rfl

theorem simulateAbort_maxQ (e : Engine) :
    (simulateAbort e).telemetry.maxQ = e.telemetry.maxQ := by
  simp only [simulateAbort]; split_ifs <;> rfl

theorem simulateLanding_maxQ (ops : Ops) (e : Engine) :
    (simulateLanding ops e).telemetry.maxQ = e.telemetry.maxQ := by
  simp only [simulateLanding]; split_ifs <;> rfl

theorem dispatchPhase_maxQ (ops : Ops) (e : Engine) :
    (dispatchPhase ops e).telemetry.maxQ = e.telemetry.maxQ := by
  cases hp : e.state.phase <;> simp only [dispatchPhase, hp]
  case IGNITION => exact simulateIgnition_maxQ e
  case LAUNCH => exact simulateAscent_maxQ ops e
  case ASCENT => exact simulateAscent_maxQ ops e
  case MECO => exact simulateMECO_maxQ e
  case STAGE_SEP => exact simulateMECO_maxQ e
  case SECOND_STAGE => exact simulateAscent_maxQ ops e
  case ABORT => exact simulateAbort_maxQ e
  case LANDING => exact simulateLanding_maxQ ops e

theorem calculateOrbitalParams_maxQ (ops : Ops) (e : Engine) :
    (calculateOrbitalParams ops e).telemetry.maxQ = e.telemetry.maxQ :=
  calculateOrbitalParamsT_maxQ ops e.telemetry

theorem calculateOrbitalParams_dynamicPressure (ops : Ops) (e : Engine) :
    (calculateOrbitalParams ops e).telemetry.dynamicPressure = e.telemetry.dynamicPressure :=
  calculateOrbitalParamsT_dynamicPressure ops e.telemetry

theorem updateEnvironment_maxQ_le (ops : Ops) (e : Engine) :
    e.telemetry.maxQ ≤ (updateEnvironment ops e).telemetry.maxQ :=
  updateEnvironmentT_maxQ_le ops e.telemetry

theorem updateEnvironment_maxQ_eq (ops : Ops) (e : Engine) (h : 0 ≤ e.telemetry.maxQ) :
    (updateEnvironment ops e).telemetry.maxQ =
      max e.telemetry.maxQ (updateEnvironment ops e).telemetry.dynamicPressure :=
  updateEnvironmentT_maxQ_eq ops e.telemetry h

/-- Source `maxQ` never decreases across one tick. -/
theorem updateSimulation_maxQ_le (ops : Ops) (e : Engine) :
    e.telemetry.maxQ ≤ (updateSimulation ops e).telemetry.maxQ := by
  simp only [updateSimulation]
  split_ifs with h1 h2
  · exact le_refl _
  · rw [checkPhaseTransitions_maxQ, calculateOrbitalParams_maxQ]
    calc e.telemetry.maxQ
        = (dispatchPhase ops (advanceClock e)).telemetry.maxQ :=
          (dispatchPhase_maxQ ops (advanceClock e)).symm
      _ ≤ _ := updateEnvironment_maxQ_le ops _
  · rw [checkPhaseTransitions_maxQ, calculateOrbitalParams_maxQ]
    calc e.telemetry.maxQ
        = (dispatchPhase ops e).telemetry.maxQ := (dispatchPhase_maxQ ops e).symm
      _ ≤ _ := updateEnvironment_maxQ_le ops _

/-- One tick turns max-Q into the maximum of the previous max-Q and the
dynamic pressure observed at the end of the tick's environment update,
and keeps the max-Q invariant. -/
theorem updateSimulation_maxQ_eq (ops : Ops) (e : Engine) (hinv : MaxQInv e) :
    (updateSimulation ops e).telemetry.maxQ =
      max e.telemetry.maxQ (updateSimulation ops e).telemetry.dynamicPressure ∧
    MaxQInv (updateSimulation ops e) := by
  obtain ⟨h0, hq⟩ := hinv
  have key : ∀ x : Engine, x.telemetry.maxQ = e.telemetry.maxQ →
      (checkPhaseTransitions (calculateOrbitalParams ops
          (updateEnvironment ops x))).telemetry.maxQ =
        max e.telemetry.maxQ
          (checkPhaseTransitions (calculateOrbitalParams ops
            (updateEnvironment ops x))).telemetry.dynamicPressure := by
    intro x hx
    rw [checkPhaseTransitions_maxQ, checkPhaseTransitions_dynamicPressure,
      calculateOrbitalParams_maxQ, calculateOrbitalParams_dynamicPressure,
      updateEnvironment_maxQ_eq ops x (by rw [hx]; exact h0), hx]
  simp only [updateSimulation]
  split_ifs with h1 h2
  · exact ⟨(max_eq_left hq).symm, h0, hq⟩
  · have hx : (dispatchPhase ops (advanceClock e)).telemetry.maxQ = e.telemetry.maxQ :=
      dispatchPhase_maxQ ops (advanceClock e)
    exact ⟨key _ hx,
      by rw [key _ hx]; exact le_trans h0 (le_max_left _ _),
      by rw [key _ hx]; exact le_max_right _ _⟩
  · have hx : (dispatchPhase ops e).telemetry.maxQ = e.telemetry.maxQ :=
      dispatchPhase_maxQ ops e
    exact ⟨key _ hx,
      by rw [key _ hx]; exact le_trans h0 (le_max_left _ _),
      by rw [key _ hx]; exact le_max_right _ _⟩

/-- C5: max-Q is non-decreasing from tick to tick, and along any run it
equals the maximum of its starting value and every dynamic pressure
observed at the end of a tick (the environment update's output, which no
later step of the tick modifies). -/
theorem claim_C5 (ops : Ops) (e : Engine) (n : ℕ) :
    (e.telemetry.maxQ ≤ (updateSimulation ops e).telemetry.maxQ) ∧
    MaxQInv initialEngine ∧
    (MaxQInv e →
      (runTicks ops e n).telemetry.maxQ =
        List.foldl max e.telemetry.maxQ
          ((List.range n).map fun k => (runTicks ops e (k + 1)).telemetry.dynamicPressure)) := by
  refine ⟨updateSimulation_maxQ_le ops e,
    ⟨by norm_num [initialEngine, initialTelemetry], by norm_num [initialEngine, initialTelemetry]⟩,
    ?_⟩
  intro hinv
  induction n with
  | zero => rfl
  | succ m ih =>
    have hrun : MaxQInv (runTicks ops e m) := by
      clear ih
      induction m with
      | zero => exact hinv
      | succ k ihk => exact (updateSimulation_maxQ_eq ops _ ihk).2
    have hstep := (updateSimulation_maxQ_eq ops (runTicks ops e m) hrun).1
    rw [List.range_succ, List.map_append, List.foldl_append]
    simp only [List.map_cons, List.map_nil, List.foldl_cons, List.foldl_nil]
    rw [← ih]
    exact hstep

/-- Witness for C5 along one tick from the initial engine. -/
theorem claim_C5_witness :
    (runTicks opsZero initialEngine 1).telemetry.maxQ =
      List.foldl max initialEngine.telemetry.maxQ
        ((List.range 1).map fun k =>
          (runTicks opsZero initialEngine (k + 1)).telemetry.dynamicPressure) :=
  (claim_C5 opsZero initialEngine 1).2.2 (claim_C5 opsZero initialEngine 1).2.1

/-! Section: Claim C2: the post-MECO staging delay -/

theorem applyThrottlePolicy_stateFrame (e : Engine) :
    (applyThrottlePolicy e).state.phase = e.state.phase ∧
    (applyThrottlePolicy e).state.stageNumber = e.state.stageNumber ∧
    (applyThrottlePolicy e).state.missionTime = e.state.missionTime := by
  unfold applyThrottlePolicy; split_ifs <;> exact ⟨rfl, rfl, rfl⟩

theorem updateGuidance_stateFrame (e : Engine) :
    (updateGuidance e).state.phase = e.state.phase ∧
    (updateGuidance e).state.stageNumber = e.state.stageNumber ∧
    (updateGuidance e).state.missionTime = e.state.missionTime := by
  unfold updateGuidance
  refine ⟨?_, ?_, ?_⟩
  · rw [(applyThrottlePolicy_stateFrame _).1, applyPitchProgram_state]
  · rw [(applyThrottlePolicy_stateFrame _).2.1, applyPitchProgram_state]
  · rw [(applyThrottlePolicy_stateFrame _).2.2, applyPitchProgram_state]

theorem simulateAscent_stateFrame (ops : Ops) (e : Engine) :
    (simulateAscent ops e).state.phase = e.state.phase ∧
    (simulateAscent ops e).state.stageNumber = e.state.stageNumber ∧
    (simulateAscent ops e).state.missionTime = e.state.missionTime := by
  simp only [simulateAscent]
  split_ifs <;> exact ⟨(updateGuidance_stateFrame _).1,
    (updateGuidance_stateFrame _).2.1, (updateGuidance_stateFrame _).2.2⟩

theorem simulateMECO_state (e : Engine) : (simulateMECO e).state = e.state := rfl

/-- The transition check carries a stage-1 engine that has just satisfied
the MECO predicate all the way to `STAGE_SEP` whenever the absolute
mission clock is past 3 s: the staging guard reads `missionTime > 3`, not
the time elapsed since MECO. -/
theorem checkPhaseTransitions_meco_sep (e : Engine)
    (hp : e.state.phase = .ASCENT) (hs : e.state.stageNumber = 1)
    (hf : e.telemetry.stage1FuelRemaining ≤ 0 ∨
      e.telemetry.stage1BurnTime ≥ firstStage.burnTime)
    (hm : e.state.missionTime > 3) :
    (checkPhaseTransitions e).state.phase = .STAGE_SEP := by
  unfold checkPhaseTransitions
  rw [transLaunchAscent_id e (by rw [hp]; intro hc; cases hc)]
  unfold transMeco
  rw [if_pos ⟨hp, hs, hf⟩]
  unfold transSep
  rw [if_pos ⟨rfl, hm⟩]
  unfold separateStage
  rw [if_pos hs]
  unfold transOrbit
  rw [if_neg (fun hc => Phase.noConfusion hc.1)]

/-- C2 as amended: from a stage-1 `MECO` state, one tick performs the
`MECO → STAGE_SEP` separation exactly when the absolute mission clock
(after its 0.1 s increment) exceeds 3 s — the guard is not relative to
the time MECO was entered. -/
theorem claim_C2 (ops : Ops) (e : Engine)
    (hp : e.state.phase = .MECO) (hs : e.state.stageNumber = 1) :
    ((updateSimulation ops e).state.phase = .STAGE_SEP ↔
      3 < e.state.missionTime + 0.1) := by
  rw [updateSimulation_meco ops e hp]
  set X := calculateOrbitalParams ops (updateEnvironment ops
    (simulateMECO (advanceClock e))) with hX
  have hXp : X.state.phase = .MECO := hp
  have hXs : X.state.stageNumber = 1 := hs
  have hXm : X.state.missionTime = e.state.missionTime + 0.1 := rfl
  unfold checkPhaseTransitions
  rw [transLaunchAscent_id X (by rw [hXp]; intro hc; cases hc),
    transMeco_id X (by rw [hXp]; intro hc; cases hc)]
  unfold transSep
  by_cases hm : X.state.missionTime > 3
  · rw [if_pos ⟨hXp, hm⟩]
    unfold separateStage
    rw [if_pos hXs]
    unfold transOrbit
    rw [if_neg (fun hc => Phase.noConfusion hc.1)]
    exact iff_of_true rfl (hXm ▸ hm)
  · rw [if_neg (fun hc => hm hc.2)]
    rw [transOrbit_id X (by rw [hXp]; intro hc; cases hc)]
    refine iff_of_false (fun hc => by rw [hXp] at hc; cases hc) ?_
    rw [hXm] at hm
    exact hm

theorem claim_C2_witness :
    (updateSimulation opsZero c2Meco).state.phase = .STAGE_SEP :=
  (claim_C2 opsZero c2Meco rfl rfl).mpr (by norm_num [c2Meco, initialState])

theorem claim_C2_cex :
    c2Cex.state.phase = .ASCENT ∧
    c2Cex.telemetry.stage1BurnTime < firstStage.burnTime ∧
    (updateSimulation opsZero c2Cex).state.phase = .STAGE_SEP := by
  refine ⟨rfl, by norm_num [c2Cex, initialTelemetry, firstStage], ?_⟩
  rw [updateSimulation_ascent opsZero c2Cex rfl]
  apply checkPhaseTransitions_meco_sep
  · rw [calculateOrbitalParams_state, updateEnvironment_state,
      (simulateAscent_stateFrame opsZero (advanceClock c2Cex)).1]
    rfl
  · rw [calculateOrbitalParams_state, updateEnvironment_state,
      (simulateAscent_stateFrame opsZero (advanceClock c2Cex)).2.1]
    rfl
  · refine Or.inr ?_
    rw [(calculateOrbitalParams_propFrame opsZero _).2.1,
      (updateEnvironment_propFrame opsZero _).2.1,
      ((simulateAscent_propellant opsZero (advanceClock c2Cex)).1 rfl).1]
    norm_num [advanceClock, c2Cex, initialTelemetry, firstStage]
  · rw [calculateOrbitalParams_state, updateEnvironment_state,
      (simulateAscent_stateFrame opsZero (advanceClock c2Cex)).2.2]
    norm_num [advanceClock, c2Cex, initialState]

/-! Section: Claim C9: abort cuts thrust and reaches `ABORTED_STOPPED` -/

theorem updateEnvironment_thrust (ops : Ops) (e : Engine) :
    (updateEnvironment ops e).telemetry.thrust = e.telemetry.thrust :=
  updateEnvironmentT_thrust ops e.telemetry

theorem updateEnvironment_altitude (ops : Ops) (e : Engine) :
    (updateEnvironment ops e).telemetry.altitude = e.telemetry.altitude :=
  updateEnvironmentT_altitude ops e.telemetry

theorem updateEnvironment_velocity (ops : Ops) (e : Engine) :
    (updateEnvironment ops e).telemetry.velocity = e.telemetry.velocity :=
  updateEnvironmentT_velocity ops e.telemetry

theorem calculateOrbitalParams_thrust (ops : Ops) (e : Engine) :
    (calculateOrbitalParams ops e).telemetry.thrust = e.telemetry.thrust :=
  calculateOrbitalParamsT_thrust ops e.telemetry

theorem calculateOrbitalParams_altitude (ops : Ops) (e : Engine) :
    (calculateOrbitalParams ops e).telemetry.altitude = e.telemetry.altitude :=
  calculateOrbitalParamsT_altitude ops e.telemetry

theorem calculateOrbitalParams_velocity (ops : Ops) (e : Engine) :
    (calculateOrbitalParams ops e).telemetry.velocity = e.telemetry.velocity :=
  calculateOrbitalParamsT_velocity ops e.telemetry

/-- The abort step always leaves thrust at zero. -/
theorem simulateAbort_thrust (e : Engine) :
    (simulateAbort e).telemetry.thrust = 0 := by
  simp only [simulateAbort]; split_ifs <;> rfl

/-- The abort step either keeps the phase or snaps it to the terminal
`ABORTED_STOPPED`. -/
theorem simulateAbort_phase (e : Engine) :
    (simulateAbort e).state.phase = e.state.phase ∨
    (simulateAbort e).state.phase = .ABORTED_STOPPED := by
  simp only [simulateAbort]
  split_ifs <;> first | exact Or.inr rfl | exact Or.inl rfl

/-- Whenever the abort step snaps an `ABORT` engine to `ABORTED_STOPPED`,
it also snaps altitude and velocity to zero. -/
theorem simulateAbort_stopZero (e : Engine) (hp : e.state.phase = .ABORT) :
    (simulateAbort e).state.phase = .ABORTED_STOPPED →
    (simulateAbort e).telemetry.altitude = 0 ∧ (simulateAbort e).telemetry.velocity = 0 := by
  simp only [simulateAbort]
  split_ifs <;> first
    | exact fun _ => ⟨rfl, rfl⟩
    | (intro hterm; exact absurd (hp.symm.trans hterm) (fun hc => Phase.noConfusion hc))

/-- The decay geometry of one abort step from a positive altitude: either
the terminal snap happens, or the altitude shrinks by at least 15 % while
staying at or above 1 m. -/
theorem simulateAbort_spec (e : Engine) (ha : 0 < e.telemetry.altitude) :
    ((simulateAbort e).state.phase = .ABORTED_STOPPED ∧
      (simulateAbort e).telemetry.altitude = 0 ∧
      (simulateAbort e).telemetry.velocity = 0) ∨
    ((simulateAbort e).state.phase = e.state.phase ∧
      1 ≤ (simulateAbort e).telemetry.altitude ∧
      (simulateAbort e).telemetry.altitude ≤ e.telemetry.altitude * 0.85) := by
  have hmax : max 0 (e.telemetry.altitude * 0.85) = e.telemetry.altitude * 0.85 :=
    max_eq_right (by linarith)
  simp only [simulateAbort]
  split_ifs with h1 h2 h3 h4
  · exact absurd h1.1 (by linarith)
  · exact Or.inl ⟨rfl, rfl, rfl⟩
  · refine Or.inr ⟨rfl, not_lt.mp h3, ?_⟩
    show max 0 (max 0 (e.telemetry.altitude * 0.85) * 0.5) ≤ e.telemetry.altitude * 0.85
    rw [hmax]
    exact max_le (by linarith) (by linarith)
  · exact Or.inl ⟨rfl, rfl, rfl⟩
  · refine Or.inr ⟨rfl, not_lt.mp h4, ?_⟩
    show max 0 (e.telemetry.altitude * 0.85) ≤ e.telemetry.altitude * 0.85
    rw [hmax]

/-- An `ABORT` tick is the abort step as far as thrust, phase, altitude
and velocity are concerned: the environment/orbital recomputation and the
transition checks leave all four untouched. -/
theorem updateSimulation_abort_fields (ops : Ops) (e : Engine)
    (hp : e.state.phase = .ABORT) :
    (updateSimulation ops e).telemetry.thrust = (simulateAbort e).telemetry.thrust ∧
    (updateSimulation ops e).state.phase = (simulateAbort e).state.phase ∧
    (updateSimulation ops e).telemetry.altitude = (simulateAbort e).telemetry.altitude ∧
    (updateSimulation ops e).telemetry.velocity = (simulateAbort e).telemetry.velocity := by
  have hYp : (calculateOrbitalParams ops (updateEnvironment ops
      (simulateAbort e))).state.phase = .ABORT ∨
      (calculateOrbitalParams ops (updateEnvironment ops
        (simulateAbort e))).state.phase = .ABORTED_STOPPED := by
    rcases simulateAbort_phase e with h | h
    · left
      rw [calculateOrbitalParams_state, updateEnvironment_state, h, hp]
    · right
      rw [calculateOrbitalParams_state, updateEnvironment_state, h]
  have hid := checkPhaseTransitions_id
    (calculateOrbitalParams ops (updateEnvironment ops (simulateAbort e)))
    (by rcases hYp with h | h <;> rw [h] <;>
      exact ⟨by decide, by decide, by decide, by decide⟩)
  have ht : updateSimulation ops e =
      calculateOrbitalParams ops (updateEnvironment ops (simulateAbort e)) := by
    rw [updateSimulation_abort ops e hp]; exact hid
  rw [ht]
  exact ⟨by rw [calculateOrbitalParams_thrust, updateEnvironment_thrust],
    by rw [calculateOrbitalParams_state, updateEnvironment_state],
    by rw [calculateOrbitalParams_altitude, updateEnvironment_altitude],
    by rw [calculateOrbitalParams_velocity, updateEnvironment_velocity]⟩

/-- One `ABORT` tick from a positive altitude: terminal snap, or the
altitude decays by at least 15 % while the phase stays `ABORT`. -/
theorem updateSimulation_abort_step (ops : Ops) (e : Engine)
    (hp : e.state.phase = .ABORT) (ha : 0 < e.telemetry.altitude) :
    (updateSimulation ops e).state.phase = .ABORTED_STOPPED ∨
    ((updateSimulation ops e).state.phase = .ABORT ∧
      1 ≤ (updateSimulation ops e).telemetry.altitude ∧
      (updateSimulation ops e).telemetry.altitude ≤ e.telemetry.altitude * 0.85) := by
  obtain ⟨-, hph, hal, -⟩ := updateSimulation_abort_fields ops e hp
  rcases simulateAbort_spec e ha with ⟨h1, -, -⟩ | ⟨h1, h2, h3⟩
  · left; rw [hph, h1]
  · right
    exact ⟨by rw [hph, h1, hp], by rw [hal]; exact h2, by rw [hal]; exact h3⟩

theorem runTicks_shift (ops : Ops) (e : Engine) (n : ℕ) :
    runTicks ops (updateSimulation ops e) n = runTicks ops e (n + 1) := by
  induction n with
  | zero => rfl
  | succ k ih =>
    show updateSimulation ops (runTicks ops (updateSimulation ops e) k) = _
    rw [ih]
    rfl

/-- Geometric decay of the abort altitude forces termination: if the
altitude is bounded by `(20/17)^N`, the sequencer stops within `N + 1`
ticks. -/
theorem abortTerminates (ops : Ops) (N : ℕ) : ∀ e : Engine,
    e.state.phase = .ABORT → 0 < e.telemetry.altitude →
    e.telemetry.altitude ≤ ((20 : ℚ) / 17) ^ N →
    ∃ n, (runTicks ops e n).state.phase = .ABORTED_STOPPED := by
  induction N with
  | zero =>
    intro e hp ha hb
    rw [pow_zero] at hb
    rcases updateSimulation_abort_step ops e hp ha with h | ⟨h1, h2, h3⟩
    · exact ⟨1, h⟩
    · exfalso; linarith
  | succ k ih =>
    intro e hp ha hb
    rcases updateSimulation_abort_step ops e hp ha with h | ⟨h1, h2, h3⟩
    · exact ⟨1, h⟩
    · have hb' : (updateSimulation ops e).telemetry.altitude ≤ ((20 : ℚ) / 17) ^ k := by
        have hstep : e.telemetry.altitude * 0.85 ≤ ((20 : ℚ) / 17) ^ (k + 1) * 0.85 :=
          mul_le_mul_of_nonneg_right hb (by norm_num)
        have hpow : ((20 : ℚ) / 17) ^ (k + 1) * 0.85 = ((20 : ℚ) / 17) ^ k := by
          rw [pow_succ]
          ring_nf
        linarith
      obtain ⟨n, hn⟩ := ih (updateSimulation ops e) h1 (by linarith) hb'
      exact ⟨n + 1, by rw [← runTicks_shift]; exact hn⟩

/-- C9: `abort()` zeroes thrust immediately and forces the `ABORT` phase;
every subsequent tick keeps thrust at zero and either stays in `ABORT` or
snaps (altitude and velocity zeroed) to the terminal `ABORTED_STOPPED`;
and from any positive altitude the sequencer reaches `ABORTED_STOPPED`
after finitely many ticks. -/
theorem claim_C9 (ops : Ops) (e : Engine) :
    ((abortCmd e).telemetry.thrust = 0 ∧ (abortCmd e).state.phase = .ABORT) ∧
    (e.state.phase = .ABORT →
      (updateSimulation ops e).telemetry.thrust = 0 ∧
      ((updateSimulation ops e).state.phase = .ABORT ∨
        (updateSimulation ops e).state.phase = .ABORTED_STOPPED) ∧
      ((updateSimulation ops e).state.phase = .ABORTED_STOPPED →
        (updateSimulation ops e).telemetry.altitude = 0 ∧
        (updateSimulation ops e).telemetry.velocity = 0)) ∧
    (e.state.phase = .ABORT → 0 < e.telemetry.altitude →
      ∃ n, (runTicks ops e n).state.phase = .ABORTED_STOPPED) := by
  refine ⟨⟨rfl, rfl⟩, ?_, ?_⟩
  · intro hp
    obtain ⟨hth, hph, hal, hve⟩ := updateSimulation_abort_fields ops e hp
    refine ⟨by rw [hth]; exact simulateAbort_thrust e, ?_, ?_⟩
    · rcases simulateAbort_phase e with h | h
      · exact Or.inl (by rw [hph, h, hp])
      · exact Or.inr (by rw [hph, h])
    · intro hterm
      obtain ⟨h1, h2⟩ := simulateAbort_stopZero e hp (by rw [← hph]; exact hterm)
      exact ⟨by rw [hal]; exact h1, by rw [hve]; exact h2⟩
  · intro hp ha
    obtain ⟨N, hN⟩ := pow_unbounded_of_one_lt e.telemetry.altitude
      (by norm_num : (1 : ℚ) < 20 / 17)
    exact abortTerminates ops N e hp ha (le_of_lt hN)

theorem claim_C9_witness :
    (abortCmd c9Engine).telemetry.thrust = 0 ∧
    (updateSimulation opsZero c9Engine).telemetry.thrust = 0 ∧
    (∃ n, (runTicks opsZero c9Engine n).state.phase = .ABORTED_STOPPED) :=
  ⟨(claim_C9 opsZero c9Engine).1.1,
   ((claim_C9 opsZero c9Engine).2.1 rfl).1,
   (claim_C9 opsZero c9Engine).2.2 rfl (by norm_num [c9Engine, initialTelemetry])⟩

/-! Section: Claim C1: ticking an already-terminal engine -/

/-- In `ABORTED_STOPPED` the tick dispatches to no updater, but — unlike
`PAD`/`ORBIT`/`LANDED` — it is not caught by the early return: the clock
still advances and the environment/orbital recomputation still runs. -/
theorem updateSimulation_stopped_eq (ops : Ops) (x : Engine)
    (hx : x.state.phase = .ABORTED_STOPPED) :
    updateSimulation ops x =
      calculateOrbitalParams ops (updateEnvironment ops (advanceClock x)) := by
  rw [updateSimulation_stopped ops x hx]
  refine checkPhaseTransitions_id _ ?_
  rw [show (calculateOrbitalParams ops (updateEnvironment ops
    (advanceClock x))).state.phase = x.state.phase from rfl, hx]
  exact ⟨by decide, by decide, by decide, by decide⟩

/-- Source `updateEnvironmentT` is exactly the record update by the factored
field functions. -/
theorem updateEnvironmentT_eq (ops : Ops) (t : Telemetry) :
    updateEnvironmentT ops t = { t with
      atmosphericDensity := envDensity ops t
      temperature := envTemp t
      machNumber := envMach ops t
      dynamicPressure := envQ ops t
      maxQ := envMaxQ ops t } := by
  simp only [updateEnvironmentT, envDensity, envTemp, envMach, envQ, envMaxQ]
  split_ifs <;> rfl

/-- Source `calculateOrbitalParamsT` is exactly the record update by the
factored field functions. -/
theorem calculateOrbitalParamsT_eq (ops : Ops) (t : Telemetry) :
    calculateOrbitalParamsT ops t = { t with
      orbitalVelocity := orbVel ops t
      apogee := orbApogee t
      perigee := orbPerigee t } := by
  simp only [calculateOrbitalParamsT, orbVel, orbApogee, orbPerigee]
  split_ifs <;> rfl

/-- The environment-then-orbital telemetry recomputation is idempotent:
its outputs depend only on altitude, velocity and the running max-Q, and
re-running it reproduces them. -/
theorem envOrb_idem (ops : Ops) (t : Telemetry) :
    calculateOrbitalParamsT ops (updateEnvironmentT ops
      (calculateOrbitalParamsT ops (updateEnvironmentT ops t))) =
    calculateOrbitalParamsT ops (updateEnvironmentT ops t) := by
  simp only [updateEnvironmentT_eq, calculateOrbitalParamsT_eq]
  apply Telemetry.ext <;>
    simp only [envDensity, envTemp, envMach, envQ, envMaxQ, orbVel, orbApogee,
      orbPerigee] <;>
    first
      | rfl
      | (split_ifs <;> rfl)

/-- C1 as amended: a tick is an exact no-op in `PAD`, `ORBIT` and
`LANDED`; in `ABORTED_STOPPED` the returned telemetry is a fixed point of
the tick (identical to the previous call's) but the flight state is not
frozen — `missionTime` still advances by 0.1 s per tick. -/
theorem claim_C1 (ops : Ops) (e : Engine) :
    ((e.state.phase = .PAD ∨ e.state.phase = .ORBIT ∨ e.state.phase = .LANDED) →
      updateSimulation ops e = e) ∧
    (e.state.phase = .ABORTED_STOPPED →
      (updateSimulation ops e).state =
        { e.state with missionTime := e.state.missionTime + 0.1 } ∧
      (updateSimulation ops (updateSimulation ops e)).telemetry =
        (updateSimulation ops e).telemetry) := by
  refine ⟨updateSimulation_absorbing ops e, fun hp => ?_⟩
  have h1 := updateSimulation_stopped_eq ops e hp
  have hp1 : (updateSimulation ops e).state.phase = .ABORTED_STOPPED := by
    rw [h1]; exact hp
  constructor
  · rw [h1]; rfl
  · rw [updateSimulation_stopped_eq ops _ hp1, h1]
    show calculateOrbitalParamsT ops (updateEnvironmentT ops
        (calculateOrbitalParamsT ops (updateEnvironmentT ops e.telemetry))) =
      calculateOrbitalParamsT ops (updateEnvironmentT ops e.telemetry)
    exact envOrb_idem ops e.telemetry

theorem claim_C1_cex :
    c1Cex.state.phase = .ABORTED_STOPPED ∧
    (updateSimulation opsZero c1Cex).state.missionTime ≠ c1Cex.state.missionTime := by
  refine ⟨rfl, ?_⟩
  rw [updateSimulation_stopped_eq opsZero c1Cex rfl,
    calculateOrbitalParams_state, updateEnvironment_state]
  norm_num [advanceClock, c1Cex, initialState]

theorem claim_C1_witness :
    updateSimulation opsZero initialEngine = initialEngine ∧
    (updateSimulation opsZero c1Cex).state =
      { c1Cex.state with missionTime := c1Cex.state.missionTime + 0.1 } ∧
    (updateSimulation opsZero (updateSimulation opsZero c1Cex)).telemetry =
      (updateSimulation opsZero c1Cex).telemetry :=
  ⟨(claim_C1 opsZero initialEngine).1 (Or.inl rfl),
   ((claim_C1 opsZero c1Cex).2 rfl).1,
   ((claim_C1 opsZero c1Cex).2 rfl).2⟩

/-! Section: Claim C3: mass during powered flight -/

/-- The exact mass decrement the ascent physics step performs. -/
theorem simulateAscent_mass (ops : Ops) (e : Engine) :
    (simulateAscent ops e).telemetry.mass =
      e.telemetry.mass -
        calculateThrust ops e (if e.state.stageNumber = 1 then firstStage else secondStage) *
            (e.state.throttleLevel / 100) /
          ((if e.state.stageNumber = 1 then firstStage else secondStage).specificImpulse * g0) *
          0.1 := by
  simp only [simulateAscent, updateGuidance_mass]
  split_ifs <;> rfl

/-- The thrust law never returns a negative thrust (whenever the abstract
exponential is non-negative, as `Math.exp` is). -/
theorem calculateThrust_nonneg (ops : Ops) (e : Engine)
    (hexp : ∀ x, 0 ≤ ops.exp x) :
    0 ≤ calculateThrust ops e (if e.state.stageNumber = 1 then firstStage else secondStage) := by
  simp only [calculateThrust]
  split_ifs with h
  · have he := hexp (-e.telemetry.altitude / 8000)
    have : (101325 : ℚ) * ops.exp (-e.telemetry.altitude / 8000) / 101325 *
        (firstStage.thrustVac - firstStage.thrust) =
        ops.exp (-e.telemetry.altitude / 8000) * 620000 := by
      norm_num [firstStage]
    rw [this]
    norm_num [firstStage]
    linarith
  · norm_num [secondStage]

/-- C3 as amended: the `ASCENT`/`SECOND_STAGE` physics step never
increases `mass` (the burn-rate decrement is non-negative for any
non-negative throttle). The code enforces no floor: see the
counterexample. -/
theorem claim_C3 (ops : Ops) (e : Engine)
    (hexp : ∀ x, 0 ≤ ops.exp x) (hth : 0 ≤ e.state.throttleLevel) :
    (simulateAscent ops e).telemetry.mass ≤ e.telemetry.mass := by
  rw [simulateAscent_mass]
  have hT := calculateThrust_nonneg ops e hexp
  have hIsp : (0 : ℚ) <
      (if e.state.stageNumber = 1 then firstStage else secondStage).specificImpulse * g0 := by
    split_ifs <;> norm_num [firstStage, secondStage, g0]
  have hsub : 0 ≤ calculateThrust ops e
        (if e.state.stageNumber = 1 then firstStage else secondStage) *
        (e.state.throttleLevel / 100) /
        ((if e.state.stageNumber = 1 then firstStage else secondStage).specificImpulse * g0) *
        0.1 := by
    apply mul_nonneg
    · apply div_nonneg
      · exact mul_nonneg hT (by positivity)
      · exact le_of_lt hIsp
    · norm_num
  linarith

theorem transOrbit_mass (e : Engine) :
    (transOrbit e).telemetry.mass = e.telemetry.mass := by
  unfold transOrbit; split_ifs <;> rfl

/-- On a `SECOND_STAGE` tick the final mass is the mass the ascent step
computed: the environment/orbital updates and the transition checks do
not touch it (stage separation only fires from `MECO`). -/
theorem updateSimulation_secondStage_mass (ops : Ops) (e : Engine)
    (hp : e.state.phase = .SECOND_STAGE) :
    (updateSimulation ops e).telemetry.mass =
      (simulateAscent ops (advanceClock e)).telemetry.mass := by
  rw [updateSimulation_secondStage ops e hp]
  have hph : (calculateOrbitalParams ops (updateEnvironment ops
      (simulateSecondStage ops (advanceClock e)))).state.phase = .SECOND_STAGE := by
    rw [calculateOrbitalParams_state, updateEnvironment_state]
    exact (simulateAscent_stateFrame ops (advanceClock e)).1.trans hp
  unfold checkPhaseTransitions
  rw [transLaunchAscent_id _ (by rw [hph]; intro hc; cases hc),
    transMeco_id _ (by rw [hph]; intro hc; cases hc),
    transSep_id _ (by rw [hph]; intro hc; cases hc),
    transOrbit_mass]
  exact (calculateOrbitalParamsT_mass ops _).trans (updateEnvironmentT_mass ops _)

theorem claim_C3_cex :
    c3Cex.telemetry.mass = secondStage.dryMass + payload ∧
    (updateSimulation opsZero c3Cex).telemetry.mass <
      secondStage.dryMass + payload := by
  refine ⟨rfl, ?_⟩
  rw [updateSimulation_secondStage_mass opsZero c3Cex rfl, simulateAscent_mass]
  norm_num [calculateThrust, advanceClock, c3Cex, initialState, initialTelemetry,
    secondStage, payload, g0]

theorem claim_C3_witness :
    0 ≤ c3Cex.state.throttleLevel ∧
    (simulateAscent opsZero c3Cex).telemetry.mass ≤ c3Cex.telemetry.mass :=
  ⟨by norm_num [c3Cex, initialState],
   claim_C3 opsZero c3Cex (fun x => le_refl 0) (by norm_num [c3Cex, initialState])⟩

end RocketSim
